import Mathlib

namespace SMPipe

/-- Python-style dynamic values flowing through the pipeline (dict-shaped records).
Strings are modelled as lists of characters; floats as rationals. -/
inductive Value : Type where
  | vStr : List Char → Value
  | vInt : Int → Value
  | vBool : Bool → Value
  | vRat : Rat → Value
  | vList : List Value → Value
  | vDict : List (String × Value) → Value
  | vNone : Value

open Value

/-- Hashable Python keys, normalised the way Python hashing equates them
(`True == 1`, `1.0 == 1`). Lists and dicts are unhashable and have no key. -/
inductive PyKey : Type where
  | kStr : List Char → PyKey
  | kInt : Int → PyKey
  | kRat : Rat → PyKey
  | kNone : PyKey
deriving DecidableEq

/-- Key view of a value: `some` for hashable values, `none` for unhashable ones
(subscripting a dict or set with the latter raises `TypeError`). -/
def keyOf : Value → Option PyKey
  | vStr s => some (PyKey.kStr s)
  | vInt n => some (PyKey.kInt n)
  | vBool b => some (PyKey.kInt (if b then 1 else 0))
  | vRat q => some (if q.den = 1 then PyKey.kInt q.num else PyKey.kRat q)
  | vNone => some PyKey.kNone
  | vList _ => none
  | vDict _ => none

/-- Lookup in a dict (string-keyed record), first matching key. -/
def dictGet (d : List (String × Value)) (k : String) : Option Value :=
  match d with
  | [] => none
  | (k2, v) :: rest => if k2 = k then some v else dictGet rest k

/-- Python `d.get(k, dflt)`. -/
def dictGetD (d : List (String × Value)) (k : String) (dflt : Value) : Value :=
  (dictGet d k).getD dflt

/-- Key-presence test, `k in d`. -/
def dictHas (d : List (String × Value)) (k : String) : Bool :=
  (dictGet d k).isSome

/-- Python `d[k] = v`: overwrite an existing binding or append a new one. -/
def dictSet (d : List (String × Value)) (k : String) (v : Value) :
    List (String × Value) :=
  match d with
  | [] => [(k, v)]
  | (k2, w) :: rest => if k2 = k then (k2, v) :: rest else (k2, w) :: dictSet rest k v

/-- Python `str.strip()` with no argument: remove leading and trailing whitespace. -/
def pyStrip (s : List Char) : List Char :=
  ((s.dropWhile Char.isWhitespace).reverse.dropWhile Char.isWhitespace).reverse

/-- Python `str.lower()` (ASCII view). -/
def pyLower (s : List Char) : List Char := s.map Char.toLower

/-- Python `needle in haystack` on strings: substring test. -/
def pyContainsSub (hay needle : List Char) : Bool :=
  hay.tails.any (fun t => needle.isPrefixOf t)

/-- Rendering of a (hashable) value inside an f-string error message. -/
def pyRepr : Value → String
  | vStr s => String.mk s
  | vInt n => toString n
  | vBool b => if b then ("True") else ("False")
  | vRat q => toString q
  | vNone => ("None")
  | vList _ => ("<list>")
  | vDict _ => ("<dict>")

/-- Python `round` on a rational: nearest integer, ties to even (banker rounding). -/
def pyRoundInt (q : Rat) : Int :=
  if q - (⌊q⌋ : Rat) < 1 / 2 then ⌊q⌋
  else if 1 / 2 < q - (⌊q⌋ : Rat) then ⌊q⌋ + 1
  else if ⌊q⌋ % 2 = 0 then ⌊q⌋ else ⌊q⌋ + 1

/-- Python `round(q, 2)`: round to two decimal places. -/
def pyRound2 (q : Rat) : Rat := (pyRoundInt (q * 100) : Rat) / 100

/-- Python `int(q)` for a real quantity: truncation toward zero. -/
def pyTrunc (q : Rat) : Int := if 0 ≤ q then ⌊q⌋ else -⌊-q⌋

/-! ### Validator (`SocialMediaConsumer.validate_post`) -/

/-- The consumer's required top-level fields, from `SocialMediaConsumer.__init__`. -/
def required_fields : List String :=
  [("post_id"), ("user_id"), ("username"), ("platform"), ("content"),
   ("engagement"), ("metadata"), ("sentiment"), ("category")]

def valid_platforms : List (List Char) :=
  [("twitter").toList, ("facebook").toList, ("instagram").toList,
   ("linkedin").toList, ("tiktok").toList]

def valid_sentiments : List (List Char) :=
  [("positive").toList, ("neutral").toList, ("negative").toList]

def valid_categories : List (List Char) :=
  [("educational").toList, ("news").toList, ("discussion").toList,
   ("advice").toList, ("general").toList]

/-- Python `isinstance(v, int)` view of a value (bools are ints in Python). -/
def pyAsInt : Value → Option Int
  | vInt n => some n
  | vBool b => some (if b then 1 else 0)
  | _ => none

/-- Membership of a value in a set of strings, `v in {...}`.
Unhashable values raise `TypeError` (modelled as `Except.error`). -/
def pyMemStrSet (v : Value) (s : List (List Char)) : Except String Bool :=
  match keyOf v with
  | none => Except.error ("unhashable type")
  | some (PyKey.kStr cs) => Except.ok (s.contains cs)
  | some _ => Except.ok false

/-- Check for missing required top-level fields. -/
def checkRequired (d : List (String × Value)) : List String :=
  let missing := required_fields.filter (fun k => !(dictHas d k))
  if missing.isEmpty then []
  else [("Missing required fields: ") ++ String.intercalate (", ") missing]

/-- Check that a value is a string with non-empty strip. -/
def isNonEmptyStr : Value → Bool
  | vStr s => !(pyStrip s).isEmpty
  | _ => false

def checkPostId (d : List (String × Value)) : List String :=
  match dictGet d ("post_id") with
  | none => []
  | some v => if isNonEmptyStr v then [] else [("post_id must be a non-empty string")]

def checkUserId (d : List (String × Value)) : List String :=
  match dictGet d ("user_id") with
  | none => []
  | some v =>
    match pyAsInt v with
    | some n => if 0 < n then [] else [("user_id must be a positive integer")]
    | none => [("user_id must be a positive integer")]

def checkPlatform (d : List (String × Value)) : List String × Option String :=
  match dictGet d ("platform") with
  | none => ([], none)
  | some v =>
    match pyMemStrSet v valid_platforms with
    | Except.error e => ([], some e)
    | Except.ok true => ([], none)
    | Except.ok false => ([("Invalid platform: ") ++ pyRepr v], none)

def checkContent (d : List (String × Value)) : List String :=
  match dictGet d ("content") with
  | none => []
  | some (vStr s) =>
    if (pyStrip s).isEmpty then [("content must be a non-empty string")]
    else if 10000 < s.length then [("content exceeds maximum length")]
    else []
  | some _ => [("content must be a non-empty string")]

def engagement_fields : List String :=
  [("likes"), ("shares"), ("comments"), ("views")]

def checkEngVal (e : List (String × Value)) (k : String) : List String :=
  match dictGet e k with
  | none => []
  | some v =>
    match pyAsInt v with
    | some n =>
      if n < 0 then [("engagement.") ++ k ++ (" must be a non-negative integer")]
      else []
    | none => [("engagement.") ++ k ++ (" must be a non-negative integer")]

def checkEngagement (d : List (String × Value)) : List String :=
  match dictGet d ("engagement") with
  | none => []
  | some (vDict e) =>
    let missing := engagement_fields.filter (fun k => !(dictHas e k))
    (if missing.isEmpty then []
     else [("Missing engagement fields: ") ++ String.intercalate (", ") missing])
    ++ (engagement_fields.map (checkEngVal e)).flatten
  | some _ => [("engagement must be a dictionary")]

/-! ### ISO-8601 timestamps (`datetime.isoformat` / `datetime.fromisoformat`) -/

/-- Calendar datetime as carried by Python `datetime` objects (naive). -/
structure PyDateTime : Type where
  year : Nat
  month : Nat
  day : Nat
  hour : Nat
  minute : Nat
  second : Nat
  micro : Nat
deriving DecidableEq

def isLeap (y : Nat) : Bool := (y % 4 = 0 && !(y % 100 = 0)) || y % 400 = 0

def daysInMonth (y m : Nat) : Nat :=
  if m = 2 then (if isLeap y then 29 else 28)
  else if m = 4 ∨ m = 6 ∨ m = 9 ∨ m = 11 then 30
  else 31

/-- Component ranges guaranteed by Python `datetime` construction. -/
def PyDateTime.InRange (dt : PyDateTime) : Prop :=
  1 ≤ dt.year ∧ dt.year ≤ 9999 ∧ 1 ≤ dt.month ∧ dt.month ≤ 12 ∧
  1 ≤ dt.day ∧ dt.day ≤ daysInMonth dt.year dt.month ∧
  dt.hour ≤ 23 ∧ dt.minute ≤ 59 ∧ dt.second ≤ 59 ∧ dt.micro ≤ 999999

instance (dt : PyDateTime) : Decidable dt.InRange := by
  unfold PyDateTime.InRange; infer_instance

def dval (c : Char) : Nat := c.toNat - 48

def pad2 (n : Nat) : List Char :=
  [Nat.digitChar (n / 10 % 10), Nat.digitChar (n % 10)]

def pad4 (n : Nat) : List Char :=
  [Nat.digitChar (n / 1000 % 10), Nat.digitChar (n / 100 % 10),
   Nat.digitChar (n / 10 % 10), Nat.digitChar (n % 10)]

def pad6 (n : Nat) : List Char :=
  [Nat.digitChar (n / 100000 % 10), Nat.digitChar (n / 10000 % 10),
   Nat.digitChar (n / 1000 % 10), Nat.digitChar (n / 100 % 10),
   Nat.digitChar (n / 10 % 10), Nat.digitChar (n % 10)]

/-- Python `datetime.isoformat()` for a naive datetime: zero-padded date,
`T`, zero-padded time, and a 6-digit fractional part only when the
microsecond field is nonzero. -/
def PyDateTime.isoformat (dt : PyDateTime) : List Char :=
  Nat.digitChar (dt.year / 1000 % 10) :: Nat.digitChar (dt.year / 100 % 10) ::
  Nat.digitChar (dt.year / 10 % 10) :: Nat.digitChar (dt.year % 10) :: '-' ::
  Nat.digitChar (dt.month / 10 % 10) :: Nat.digitChar (dt.month % 10) :: '-' ::
  Nat.digitChar (dt.day / 10 % 10) :: Nat.digitChar (dt.day % 10) :: 'T' ::
  Nat.digitChar (dt.hour / 10 % 10) :: Nat.digitChar (dt.hour % 10) :: ':' ::
  Nat.digitChar (dt.minute / 10 % 10) :: Nat.digitChar (dt.minute % 10) :: ':' ::
  Nat.digitChar (dt.second / 10 % 10) :: Nat.digitChar (dt.second % 10) ::
  (if dt.micro = 0 then [] else '.' :: pad6 dt.micro)

def parse2 (a b : Char) : Option Nat :=
  if a.isDigit ∧ b.isDigit then some (dval a * 10 + dval b) else none

def parse4 (a b c d : Char) : Option Nat :=
  match parse2 a b, parse2 c d with
  | some hi, some lo => some (hi * 100 + lo)
  | _, _ => none

/-- Fractional-second digits: `fromisoformat` accepts exactly 3 or 6 digits. -/
def parseFrac : List Char → Option Nat
  | [a, b, c] =>
    match parse2 a b, parse2 c c with
    | some hi, _ =>
      if c.isDigit then some ((hi * 10 + dval c) * 1000) else none
    | _, _ => none
  | [a, b, c, d, e, f] =>
    match parse4 a b c d, parse2 e f with
    | some hi, some lo => some (hi * 100 + lo)
    | _, _ => none
  | _ => none

/-- Time-of-day parser `HH[:MM[:SS[.fff[fff]]]]` returning
(hour, minute, second, microsecond). -/
def parseHMS : List Char → Option (Nat × Nat × Nat × Nat)
  | [a, b] => (parse2 a b).map (fun h => (h, 0, 0, 0))
  | [a, b, ':', c, d] =>
    match parse2 a b, parse2 c d with
    | some h, some m => some (h, m, 0, 0)
    | _, _ => none
  | [a, b, ':', c, d, ':', e, f] =>
    match parse2 a b, parse2 c d, parse2 e f with
    | some h, some m, some s => some (h, m, s, 0)
    | _, _, _ => none
  | a :: b :: ':' :: c :: d :: ':' :: e :: f :: '.' :: frac =>
    match parse2 a b, parse2 c d, parse2 e f, parseFrac frac with
    | some h, some m, some s, some us => some (h, m, s, us)
    | _, _, _, _ => none
  | _ => none

/-- Split the time string at a timezone sign, as `fromisoformat` does:
the part before the first `-` (else the first `+`), and the rest. -/
def splitTz (t : List Char) : List Char × Option (List Char) :=
  match t.findIdx? (fun c => c = '-') with
  | some i => (t.take i, some (t.drop (i + 1)))
  | none =>
    match t.findIdx? (fun c => c = '+') with
    | some i => (t.take i, some (t.drop (i + 1)))
    | none => (t, none)

/-- Timezone tail `HH:MM[:SS[.ffffff]]` (length 5, 8 or 15 after the sign). -/
def parseTzTail (tz : List Char) : Option Unit :=
  if tz.length = 5 ∨ tz.length = 8 ∨ tz.length = 15 then
    match parseHMS tz with
    | some (h, m, s, _) => if h ≤ 23 ∧ m ≤ 59 ∧ s ≤ 59 then some () else none
    | none => none
  else none

/-- Python `datetime.fromisoformat`: 10-character date, then optionally a
separator character and a time (with optional timezone offset). Returns the
parsed (naive) components, or `none` where Python raises `ValueError`. -/
def pyFromIso (cs : List Char) : Option PyDateTime :=
  match cs with
  | [y1, y2, y3, y4, '-', m1, m2, '-', d1, d2] =>
    match parse4 y1 y2 y3 y4, parse2 m1 m2, parse2 d1 d2 with
    | some y, some mo, some dy =>
      if 1 ≤ y ∧ 1 ≤ mo ∧ mo ≤ 12 ∧ 1 ≤ dy ∧ dy ≤ daysInMonth y mo then
        some ⟨y, mo, dy, 0, 0, 0, 0⟩
      else none
    | _, _, _ => none
  | y1 :: y2 :: y3 :: y4 :: '-' :: m1 :: m2 :: '-' :: d1 :: d2 :: _ :: tstr =>
    match parse4 y1 y2 y3 y4, parse2 m1 m2, parse2 d1 d2 with
    | some y, some mo, some dy =>
      if 1 ≤ y ∧ 1 ≤ mo ∧ mo ≤ 12 ∧ 1 ≤ dy ∧ dy ≤ daysInMonth y mo then
        let (tpart, tz) := splitTz tstr
        match parseHMS tpart with
        | some (h, mi, s, us) =>
          if h ≤ 23 ∧ mi ≤ 59 ∧ s ≤ 59 then
            match tz with
            | none => some ⟨y, mo, dy, h, mi, s, us⟩
            | some tzs =>
              match parseTzTail tzs with
              | some _ => some ⟨y, mo, dy, h, mi, s, us⟩
              | none => none
          else none
        | none => none
      else none
    | _, _, _ => none
  | _ => none

/-- Python `s.replace(Z-char, utc-offset)` used by the validator before parsing. -/
def pyReplaceZ (s : List Char) : List Char :=
  (s.map (fun c => if c = 'Z' then ("+00:00").toList else [c])).flatten

def checkTimestamp (m : List (String × Value)) : List String :=
  match dictGet m ("timestamp") with
  | none => []
  | some (vStr s) =>
    if (pyFromIso (pyReplaceZ s)).isSome then []
    else [("metadata.timestamp must be a valid ISO format datetime")]
  | some _ => [("metadata.timestamp must be a valid ISO format datetime")]

def checkHashtags (m : List (String × Value)) : List String :=
  match dictGet m ("hashtags") with
  | none => []
  | some (vList xs) =>
    if xs.all (fun x => match x with | vStr _ => true | _ => false) then []
    else [("All hashtags must be strings")]
  | some _ => [("metadata.hashtags must be a list")]

def checkMetadata (d : List (String × Value)) : List String :=
  match dictGet d ("metadata") with
  | none => []
  | some (vDict m) => checkTimestamp m ++ checkHashtags m
  | some _ => [("metadata must be a dictionary")]

def checkSentiment (d : List (String × Value)) : List String × Option String :=
  match dictGet d ("sentiment") with
  | none => ([], none)
  | some v =>
    match pyMemStrSet v valid_sentiments with
    | Except.error e => ([], some e)
    | Except.ok true => ([], none)
    | Except.ok false => ([("Invalid sentiment: ") ++ pyRepr v], none)

def checkCategory (d : List (String × Value)) : List String × Option String :=
  match dictGet d ("category") with
  | none => ([], none)
  | some v =>
    match pyMemStrSet v valid_categories with
    | Except.error e => ([], some e)
    | Except.ok true => ([], none)
    | Except.ok false => ([("Invalid category: ") ++ pyRepr v], none)

/-- Body of the `try` block of `validate_post`: the accumulated error strings
and, when a check raised an unexpected exception, its message (checks after
the raise do not run, but earlier errors are kept). -/
def validateChecks (d : List (String × Value)) : List String × Option String :=
  let e1 := checkRequired d ++ checkPostId d ++ checkUserId d
  match checkPlatform d with
  | (e2, some exc) => (e1 ++ e2, some exc)
  | (e2, none) =>
    let e3 := checkContent d ++ checkEngagement d ++ checkMetadata d
    match checkSentiment d with
    | (e4, some exc) => (e1 ++ e2 ++ e3 ++ e4, some exc)
    | (e4, none) =>
      match checkCategory d with
      | (e5, some exc) => (e1 ++ e2 ++ e3 ++ e4 ++ e5, some exc)
      | (e5, none) => (e1 ++ e2 ++ e3 ++ e4 ++ e5, none)

/-- Error list and exception of the whole `try` body; a non-dict argument
raises immediately (`post_data.keys()` has no meaning). -/
def validate_core (v : Value) : List String × Option String :=
  match v with
  | vDict d => validateChecks d
  | _ => ([], some ("object has no attribute keys"))

/-- `SocialMediaConsumer.validate_post`: `(is_valid, error_messages)`.
An unexpected exception is converted to a generic validation error appended
to the errors gathered so far; validity is emptiness of the error list. -/
def validate_post (v : Value) : Bool × List String :=
  let r := validate_core v
  let errs := r.1 ++ (match r.2 with
    | none => []
    | some e => [("Validation error: ") ++ e])
  (errs.isEmpty, errs)

/-! ### Transformer (`SocialMediaConsumer.transform_post`) -/

/-- Numeric view of a value for Python arithmetic (bools count as ints). -/
def pyAsNum : Value → Option Rat
  | vInt n => some (n : Rat)
  | vBool b => some (if b then 1 else 0)
  | vRat q => some q
  | _ => none

/-- Python `len` (strings, lists, dicts); `none` where Python raises `TypeError`. -/
def pyLen : Value → Option Nat
  | vStr s => some s.length
  | vList l => some l.length
  | vDict d => some d.length
  | _ => none

def countWordsAux : List Char → Bool → Nat
  | [], _ => 0
  | c :: rest, inWord =>
    if c.isWhitespace then countWordsAux rest false
    else (if inWord then 0 else 1) + countWordsAux rest true

/-- Python `len(s.split())`: number of whitespace-separated words. -/
def pyWordCount (s : List Char) : Nat := countWordsAux s false

/-- Engagement rate from `transform_post`:
`(likes+shares+comments)/views*100` when `views > 0`, else `0`,
rounded to two decimals. -/
def engagement_rate (likes shares comments views : Rat) : Rat :=
  pyRound2 (if 0 < views then (likes + shares + comments) / views * 100 else 0)

/-- Popularity score from `transform_post`: fixed weights
likes 1.0, shares 3.0, comments 2.0, views 0.1; not rounded. -/
def popularity_score (likes shares comments views : Rat) : Rat :=
  likes * 1 + shares * 3 + comments * 2 + views * (1 / 10)

/-- `SocialMediaConsumer.transform_post` on a validated record: copies the
dict, adds `processed_at`, `engagement_rate`, `content_metrics`,
`popularity_score`, `post_size` and `post_hour`. Any Python exception along
the way (missing key, bad type, unparseable raw timestamp) is an `error`. -/
def transform_post (nowIso : List Char) (post : Value) : Except String Value :=
  match post with
  | vDict d =>
    let t0 := dictSet d ("processed_at") (vStr nowIso)
    match dictGet d ("engagement") with
    | none => Except.error ("KeyError engagement")
    | some (vDict e) =>
      match pyAsNum (dictGetD e ("likes") vNone) with
      | none => Except.error ("TypeError engagement arithmetic")
      | some likes =>
      match pyAsNum (dictGetD e ("shares") vNone) with
      | none => Except.error ("TypeError engagement arithmetic")
      | some shares =>
      match pyAsNum (dictGetD e ("comments") vNone) with
      | none => Except.error ("TypeError engagement arithmetic")
      | some comments =>
      match pyAsNum (dictGetD e ("views") vNone) with
      | none => Except.error ("TypeError engagement arithmetic")
      | some views =>
        let t1 := dictSet t0 ("engagement_rate")
          (vRat (engagement_rate likes shares comments views))
        match dictGet d ("content") with
        | none => Except.error ("KeyError content")
        | some (vStr cchars) =>
          let cc := cchars.length
          let wc := pyWordCount cchars
          match dictGet d ("metadata") with
          | none => Except.error ("KeyError metadata")
          | some (vDict md) =>
            match pyLen (dictGetD md ("hashtags") (vList [])) with
            | none => Except.error ("TypeError len of hashtags")
            | some hc =>
              let mc := dictGetD md ("mentions") (vInt 0)
              let t2 := dictSet t1 ("content_metrics") (vDict
                [(("character_count"), vInt cc), (("word_count"), vInt wc),
                 (("hashtag_count"), vInt hc), (("mention_count"), mc)])
              let t3 := dictSet t2 ("popularity_score")
                (vRat (popularity_score likes shares comments views))
              let sz := if cc < 50 then ("short") else if cc < 200 then ("medium") else ("long")
              let t4 := dictSet t3 ("post_size") (vStr sz.toList)
              match dictGet md ("timestamp") with
              | none => Except.error ("KeyError timestamp")
              | some (vStr ts) =>
                match pyFromIso ts with
                | some dt => Except.ok (vDict (dictSet t4 ("post_hour") (vInt dt.hour)))
                | none => Except.error ("ValueError invalid isoformat string")
              | some _ => Except.error ("TypeError fromisoformat argument")
          | some _ => Except.error ("AttributeError metadata get")
        | some _ => Except.error ("AttributeError content split")
    | some _ => Except.error ("TypeError engagement subscript")
  | _ => Except.error ("TypeError post subscript")

/-! ### Aggregator (`SocialMediaConsumer.update_statistics` and counters) -/

/-- Python equality of two (hashable) dict keys. -/
def pyKeyBeq (a b : Value) : Bool :=
  match keyOf a, keyOf b with
  | some x, some y => decide (x = y)
  | _, _ => false

/-- `defaultdict(int)` / `Counter` increment: `m[k] += 1`. -/
def bump (m : List (Value × Nat)) (k : Value) : List (Value × Nat) :=
  match m with
  | [] => [(k, 1)]
  | (k2, n) :: rest =>
    if pyKeyBeq k2 k then (k2, n + 1) :: rest else (k2, n) :: bump rest k

/-- `defaultdict(list)` append: `m[k].append(v)`. -/
def appendTo (m : List (Value × List Value)) (k : Value) (v : Value) :
    List (Value × List Value) :=
  match m with
  | [] => [(k, [v])]
  | (k2, l) :: rest =>
    if pyKeyBeq k2 k then (k2, l ++ [v]) :: rest else (k2, l) :: appendTo rest k v

/-- The consumer's running aggregation state. -/
structure AggState : Type where
  platform_stats : List (Value × Nat)
  topic_stats : List (Value × Nat)
  engagement_stats : List (Value × List Value)
  sentiment_stats : List (Value × Nat)
  category_stats : List (Value × Nat)
  hourly_stats : List (Value × Nat)

def initialAgg : AggState := ⟨[], [], [], [], [], []⟩

/-- `SocialMediaConsumer.update_statistics` on a transformed record, with the
possibility of a Python exception part-way through: mutations made before the
raise are kept (the state is returned together with the exception). -/
def update_statistics (a : AggState) (tp : List (String × Value)) :
    AggState × Option String :=
  match dictGet tp ("platform") with
  | none => (a, some ("KeyError platform"))
  | some pv =>
    if (keyOf pv).isNone then (a, some ("unhashable platform")) else
    let a1 : AggState := { a with platform_stats := bump a.platform_stats pv }
    let tv := dictGetD tp ("topic") (vStr ("unknown").toList)
    if (keyOf tv).isNone then (a1, some ("unhashable topic")) else
    let a2 : AggState := { a1 with topic_stats := bump a1.topic_stats tv }
    match dictGet tp ("engagement_rate") with
    | none => (a2, some ("KeyError engagement_rate"))
    | some rv =>
      let a3 : AggState := { a2 with engagement_stats := appendTo a2.engagement_stats pv rv }
      match dictGet tp ("sentiment") with
      | none => (a3, some ("KeyError sentiment"))
      | some sv =>
        if (keyOf sv).isNone then (a3, some ("unhashable sentiment")) else
        let a4 : AggState := { a3 with sentiment_stats := bump a3.sentiment_stats sv }
        match dictGet tp ("category") with
        | none => (a4, some ("KeyError category"))
        | some cv =>
          if (keyOf cv).isNone then (a4, some ("unhashable category")) else
          let a5 : AggState := { a4 with category_stats := bump a4.category_stats cv }
          match dictGet tp ("post_hour") with
          | none => (a5, some ("KeyError post_hour"))
          | some hv =>
            if (keyOf hv).isNone then (a5, some ("unhashable post_hour")) else
            ({ a5 with hourly_stats := bump a5.hourly_stats hv }, none)

/-! ### Consumer processing loop state (`SocialMediaConsumer.process_post`) -/

structure ConsumerState : Type where
  processed_posts : Nat
  failed_posts : Nat
  processed_data : List Value
  agg : AggState
  error_log : List (Value × List String)

def initialState : ConsumerState := ⟨0, 0, [], initialAgg, []⟩

/-- Python `post_data.get(post-id-key, unknown)`; `none` models the
`AttributeError` raised when `post_data` is not a dict. -/
def pyGetPostId : Value → Option Value
  | vDict d => some (dictGetD d ("post_id") (vStr ("unknown").toList))
  | _ => none

/-- One `process_post` call: validate, transform, aggregate, with the
source's exception handling (a failed validation or an exception increments
the failure counter; an exception while building the error-log entry for a
non-dict input leaves the log untouched and bumps the counter again in the
outer handler before propagating). Returns the new state and the processed
record, if any. -/
def process_post (s : ConsumerState) (nowIso : List Char) (post : Value) :
    ConsumerState × Option Value :=
  let vr := validate_post post
  if vr.1 then
    match transform_post nowIso post with
    | Except.error e =>
      match pyGetPostId post with
      | some pid =>
        ({ s with failed_posts := s.failed_posts + 1,
                  error_log := s.error_log ++ [(pid, [e])] }, none)
      | none => ({ s with failed_posts := s.failed_posts + 1 }, none)
    | Except.ok tp =>
      match tp with
      | vDict td =>
        match update_statistics s.agg td with
        | (agg2, none) =>
          ({ s with agg := agg2,
                    processed_data := s.processed_data ++ [tp],
                    processed_posts := s.processed_posts + 1 }, some tp)
        | (agg2, some e) =>
          match pyGetPostId post with
          | some pid =>
            ({ s with agg := agg2, failed_posts := s.failed_posts + 1,
                      error_log := s.error_log ++ [(pid, [e])] }, none)
          | none => ({ s with agg := agg2, failed_posts := s.failed_posts + 1 }, none)
      | _ => ({ s with failed_posts := s.failed_posts + 1 }, none)
  else
    match pyGetPostId post with
    | some pid =>
      ({ s with failed_posts := s.failed_posts + 1,
                error_log := s.error_log ++ [(pid, vr.2)] }, none)
    | none => ({ s with failed_posts := s.failed_posts + 2 }, none)

/-- A consumer run: fold `process_post` over a sequence of
(processing timestamp, record) pairs pulled from the channel. -/
def run_consumer (s : ConsumerState) : List (List Char × Value) → ConsumerState
  | [] => s
  | (nowIso, post) :: rest => run_consumer (process_post s nowIso post).1 rest

/-- Sum of the values of a counts dict (`sum(d.values())`). -/
def sumVals (m : List (Value × Nat)) : Nat := (m.map Prod.snd).sum

/-! ### Analytics (`get_analytics`, `get_stats`) -/

/-- Success rate as computed by `SocialMediaConsumer.get_stats`:
guarded to `0` when no records were attempted. -/
def success_rate (processed failed : Nat) : Rat :=
  if 0 < processed + failed then
    pyRound2 ((processed : Rat) / ((processed : Rat) + (failed : Rat)) * 100)
  else 0

/-- Success rate as emitted by `SocialMediaConsumer.get_analytics`:
when no data has been processed the method returns a plain
no-data message instead of an analytics dict, so no rate exists (`none`). -/
def get_analytics_success_rate (s : ConsumerState) : Option Rat :=
  if s.processed_data.isEmpty then none
  else some (pyRound2 ((s.processed_posts : Rat) /
    ((s.processed_posts : Rat) + (s.failed_posts : Rat)) * 100))

/-- The `popularity_score` sort key used by `get_analytics`. -/
def popKey (v : Value) : Rat :=
  match v with
  | vDict d =>
    match dictGet d ("popularity_score") with
    | some (vRat q) => q
    | _ => 0
  | _ => 0

/-- Comparator realising Python `sorted(key=popularity, reverse=True)`:
a stable descending sort by score. -/
def scoreGe (a b : Value) : Bool := decide (popKey b ≤ popKey a)

/-- `get_analytics` top performers: stable sort by score descending, first 5. -/
def top_posts (data : List Value) : List Value :=
  (data.mergeSort scoreGe).take 5

/-! ### Producer loop (`SocialMediaProducer.start_production`) -/

/-- Observable producer-loop state: the success counter, how many times
`generate_post` was called, which generated records were enqueued
(identified by their generation index), and the sleeps performed. -/
structure ProducerState : Type where
  posts_generated : Nat
  gen_calls : Nat
  enqueued : List Nat
  sleeps : List Rat

def pInit : ProducerState := ⟨0, 0, [], []⟩

/-- One iteration of the production loop body: generate a fresh record; if
the channel reports `Full` on put, log, sleep `interval * 2` and `continue`
(the freshly generated record is not enqueued and the success counter is not
touched); otherwise enqueue it, count it, and sleep `interval`. -/
def produceStep (interval : Rat) (s : ProducerState) (isFull : Bool) : ProducerState :=
  if isFull then
    { s with gen_calls := s.gen_calls + 1, sleeps := s.sleeps ++ [interval * 2] }
  else
    { posts_generated := s.posts_generated + 1,
      gen_calls := s.gen_calls + 1,
      enqueued := s.enqueued ++ [s.gen_calls],
      sleeps := s.sleeps ++ [interval] }

/-- `SocialMediaProducer.start_production`: iterate while the quota is not
reached, driven by the sequence of channel-full outcomes observed at each
`put` attempt (the list ending models `is_running` being cleared). -/
def start_production (interval : Rat) (max_posts : Nat) (s : ProducerState) :
    List Bool → ProducerState
  | [] => s
  | b :: rest =>
    if s.posts_generated < max_posts then
      start_production interval max_posts (produceStep interval s b) rest
    else s

/-- Mirror of the production loop computing, from the loop counters, the
suffixes it appends: (new posts counted, generate calls made, enqueued
generation indices, sleeps), used to state what the loop does. -/
def prodSpec (interval : Rat) (max_posts : Nat) (p g : Nat) :
    List Bool → Nat × Nat × List Nat × List Rat
  | [] => (p, g, [], [])
  | b :: rest =>
    if p < max_posts then
      if b then
        let r := prodSpec interval max_posts p (g + 1) rest
        (r.1, r.2.1, r.2.2.1, interval * 2 :: r.2.2.2)
      else
        let r := prodSpec interval max_posts (p + 1) (g + 1) rest
        (r.1, r.2.1, g :: r.2.2.1, interval :: r.2.2.2)
    else (p, g, [], [])

/-! ### Record generator (`SocialMediaProducer.generate_post`) -/

def platforms : List (List Char) :=
  [("twitter").toList, ("facebook").toList, ("instagram").toList,
   ("linkedin").toList, ("tiktok").toList]

def usernames : List (List Char) :=
  [("tech_enthusiast").toList, ("data_scientist").toList, ("social_guru").toList,
   ("content_creator").toList, ("digital_nomad").toList, ("startup_founder").toList,
   ("marketing_pro").toList, ("developer_life").toList, ("business_insider").toList,
   ("creative_mind").toList, ("innovation_hub").toList, ("trend_setter").toList]

def topics : List (List Char) :=
  [("artificial intelligence").toList, ("machine learning").toList,
   ("data science").toList, ("cloud computing").toList, ("cybersecurity").toList,
   ("blockchain").toList, ("mobile development").toList, ("web development").toList,
   ("digital marketing").toList, ("social media").toList, ("entrepreneurship").toList]

/-- ASCII apostrophe, spelled by code point. -/
def apos : Char := Char.ofNat 39

/-- The eight content templates, split at their topic placeholder. -/
def content_templates : List (List Char × List Char) :=
  [(("Just discovered an amazing new tool for ").toList, ("! #tech #innovation").toList),
   (("Thoughts on the latest trends in ").toList, ("? Share your insights below!").toList),
   (("Breaking: Major breakthrough in ").toList, (" industry announced today").toList),
   (("Tutorial: How to master ").toList, (" in 5 simple steps").toList),
   (("Weekly roundup: Top ").toList,
     (" news you shouldn").toList ++ apos :: ("t miss").toList),
   (("Behind the scenes: Our journey with ").toList, (" development").toList),
   (("Quick tip: Boost your ").toList, (" productivity with this simple hack").toList),
   (("Community question: What").toList ++ apos :: ("s your favorite ").toList,
     (" resource?").toList)]

/-- Per-platform engagement multiplier, default 1.0. -/
def engagement_multiplier (p : List Char) : Rat :=
  if p = ("twitter").toList then 1
  else if p = ("facebook").toList then 3 / 2
  else if p = ("instagram").toList then 2
  else if p = ("linkedin").toList then 4 / 5
  else if p = ("tiktok").toList then 3
  else 1

/-- Topic-keyed hashtag pools with the default pool. -/
def hashtag_pools (t : List Char) : List (List Char) :=
  if t = ("artificial intelligence").toList then
    [("#AI").toList, ("#MachineLearning").toList, ("#Tech").toList, ("#Innovation").toList]
  else if t = ("machine learning").toList then
    [("#ML").toList, ("#DataScience").toList, ("#AI").toList, ("#Analytics").toList]
  else if t = ("data science").toList then
    [("#DataScience").toList, ("#BigData").toList, ("#Analytics").toList, ("#ML").toList]
  else if t = ("cloud computing").toList then
    [("#Cloud").toList, ("#AWS").toList, ("#Azure").toList, ("#Tech").toList]
  else if t = ("cybersecurity").toList then
    [("#CyberSecurity").toList, ("#InfoSec").toList, ("#Security").toList, ("#Tech").toList]
  else if t = ("blockchain").toList then
    [("#Blockchain").toList, ("#Crypto").toList, ("#Web3").toList, ("#Innovation").toList]
  else if t = ("mobile development").toList then
    [("#MobileDev").toList, ("#iOS").toList, ("#Android").toList, ("#Tech").toList]
  else if t = ("web development").toList then
    [("#WebDev").toList, ("#JavaScript").toList, ("#Frontend").toList, ("#Backend").toList]
  else if t = ("digital marketing").toList then
    [("#DigitalMarketing").toList, ("#Marketing").toList, ("#SocialMedia").toList, ("#Growth").toList]
  else if t = ("social media").toList then
    [("#SocialMedia").toList, ("#Marketing").toList, ("#Content").toList, ("#Engagement").toList]
  else if t = ("entrepreneurship").toList then
    [("#Startup").toList, ("#Entrepreneur").toList, ("#Business").toList, ("#Innovation").toList]
  else [("#Tech").toList, ("#Innovation").toList]

def sentiments : List (List Char) :=
  [("positive").toList, ("neutral").toList, ("negative").toList]

/-- `SocialMediaProducer._categorize_content`: keyword rules on the content. -/
def categorize_content (content topic : List Char) : List Char :=
  let lc := pyLower content
  if pyContainsSub lc (("tutorial").toList) || pyContainsSub lc (("how to").toList) then
    ("educational").toList
  else if pyContainsSub lc (("breaking").toList) || pyContainsSub lc (("news").toList) then
    ("news").toList
  else if pyContainsSub lc (("question").toList) || content.contains '?' then
    ("discussion").toList
  else if pyContainsSub lc (("tip").toList) || pyContainsSub lc (("hack").toList) then
    ("advice").toList
  else ("general").toList

/-- One record's worth of random draws (each within its stated range) plus
the wall-clock inputs of `generate_post`. -/
structure GenDraws : Type where
  tnow : Nat
  userId : Nat
  usernameIdx : Nat
  platformIdx : Nat
  topicIdx : Nat
  templateIdx : Nat
  base : Nat
  jLikes : Rat
  jShares : Rat
  jComments : Rat
  jViews : Rat
  postTime : PyDateTime
  verified : Bool
  hasMedia : Bool
  hashtagIdxs : List Nat
  mentions : Nat
  sentimentIdx : Nat

/-- The stated ranges of the generator's random draws. -/
def GenDraws.InRange (g : GenDraws) : Prop :=
  1000 ≤ g.userId ∧ g.userId ≤ 9999 ∧ g.usernameIdx < 12 ∧ g.platformIdx < 5 ∧
  g.topicIdx < 11 ∧ g.templateIdx < 8 ∧ 10 ≤ g.base ∧ g.base ≤ 1000 ∧
  4 / 5 ≤ g.jLikes ∧ g.jLikes ≤ 6 / 5 ∧ 1 / 2 ≤ g.jShares ∧ g.jShares ≤ 3 / 2 ∧
  3 / 10 ≤ g.jComments ∧ g.jComments ≤ 2 ∧ 5 ≤ g.jViews ∧ g.jViews ≤ 15 ∧
  g.postTime.InRange ∧ 1 ≤ g.hashtagIdxs.length ∧ g.hashtagIdxs.length ≤ 3 ∧
  g.mentions ≤ 3 ∧ g.sentimentIdx < 3

instance (g : GenDraws) : Decidable g.InRange := by
  unfold GenDraws.InRange; infer_instance

def natToChars (n : Nat) : List Char := (toString n).toList

/-- `SocialMediaProducer.generate_post`, parametrised by the random draws
and the current generated-count. -/
def generate_post (g : GenDraws) (posts_generated : Nat) : Value :=
  let post_id := ("post_").toList ++ natToChars (posts_generated + 1) ++
    '_' :: natToChars g.tnow
  let platform := platforms.getD g.platformIdx []
  let topic := topics.getD g.topicIdx []
  let tmpl := content_templates.getD g.templateIdx ([], [])
  let content := tmpl.1 ++ topic ++ tmpl.2
  let mult := engagement_multiplier platform
  let likes := pyTrunc ((g.base : Rat) * mult * g.jLikes)
  let shares := pyTrunc ((g.base : Rat) * mult * (1 / 10) * g.jShares)
  let comments := pyTrunc ((g.base : Rat) * mult * (1 / 20) * g.jComments)
  let views := pyTrunc ((g.base : Rat) * mult * 10 * g.jViews)
  let hashtags := g.hashtagIdxs.map
    (fun i => vStr ((hashtag_pools topic).getD i (("#Tech").toList)))
  vDict
    [(("post_id"), vStr post_id),
     (("user_id"), vInt g.userId),
     (("username"), vStr (usernames.getD g.usernameIdx [])),
     (("platform"), vStr platform),
     (("content"), vStr content),
     (("topic"), vStr topic),
     (("engagement"), vDict
       [(("likes"), vInt likes), (("shares"), vInt shares),
        (("comments"), vInt comments), (("views"), vInt views)]),
     (("metadata"), vDict
       [(("timestamp"), vStr g.postTime.isoformat),
        (("language"), vStr (("en").toList)),
        (("verified_user"), vBool g.verified),
        (("has_media"), vBool g.hasMedia),
        (("hashtags"), vList hashtags),
        (("mentions"), vInt g.mentions)]),
     (("sentiment"), vStr (sentiments.getD g.sentimentIdx [])),
     (("category"), vStr (categorize_content content topic))]

/-! ### Sample records used as concrete inputs -/

def sampleEngagement : Value :=
  vDict [(("likes"), vInt 1), (("shares"), vInt 1),
         (("comments"), vInt 1), (("views"), vInt 1)]

def sampleMetadata : Value :=
  vDict [(("timestamp"), vStr (("2024-01-01T00:00:00").toList))]

/-- A schema-conformant record (modulo its `content` argument). -/
def mkRecord (content : Value) : List (String × Value) :=
  [(("post_id"), vStr (("p1").toList)),
   (("user_id"), vInt 1),
   (("username"), vStr (("u1").toList)),
   (("platform"), vStr (("twitter").toList)),
   (("content"), content),
   (("engagement"), sampleEngagement),
   (("metadata"), sampleMetadata),
   (("sentiment"), vStr (("positive").toList)),
   (("category"), vStr (("news").toList))]

/-- A schema-conformant record carrying an extra `topic` value. -/
def mkRecordT (content : Value) (topic : Value) : List (String × Value) :=
  mkRecord content ++ [(("topic"), topic)]

/-- A record with every field of the data model except `username`. -/
def noUsernameRecord : List (String × Value) :=
  [(("post_id"), vStr (("p1").toList)),
   (("user_id"), vInt 1),
   (("platform"), vStr (("twitter").toList)),
   (("content"), vStr (("hello world").toList)),
   (("topic"), vStr (("data science").toList)),
   (("engagement"), sampleEngagement),
   (("metadata"), sampleMetadata),
   (("sentiment"), vStr (("positive").toList)),
   (("category"), vStr (("news").toList))]

/-- Whether the `topic` value the aggregator will key on is hashable. -/
def topic_hashable : Value → Bool
  | Value.vDict d => (keyOf (dictGetD d ("topic") (vStr (("unknown").toList)))).isSome
  | _ => true

/-- A valid record carrying an unhashable (list-valued) `topic`. -/
def badTopicPost : Value := vDict (mkRecordT (vStr (("hello").toList)) (vList []))

/-- A plain valid record. -/
def goodPost : Value := vDict (mkRecord (vStr (("hello").toList)))

/-- Two distinct processed records with equal popularity scores. -/
def tieA : Value := vDict [(("popularity_score"), vRat 1)]

def tieB : Value := vDict [(("popularity_score"), vRat 1), (("x"), vNone)]

/-- A concrete tuple of generator draws, each inside its stated range. -/
def sampleDraws : GenDraws :=
  ⟨0, 1000, 0, 0, 0, 0, 10, 1, 1, 1, 5, ⟨2024, 1, 1, 0, 0, 0, 0⟩,
   false, false, [0], 0, 0⟩

/-! ## Helper lemmas -/

theorem floor_le_pyRoundInt (q : Rat) : ⌊q⌋ ≤ pyRoundInt q := by
  unfold pyRoundInt
  split_ifs <;> omega

theorem pyRoundInt_le_ceil (q : Rat) : pyRoundInt q ≤ ⌈q⌉ := by
  have hfc : ⌊q⌋ ≤ ⌈q⌉ := Int.floor_le_ceil q
  have key : ¬(q - (⌊q⌋ : Rat) < 1 / 2) → ⌊q⌋ + 1 ≤ ⌈q⌉ := by
    intro h
    push_neg at h
    have h1 : (⌊q⌋ : Rat) < q := by linarith
    have h2 : (⌊q⌋ : Rat) < (⌈q⌉ : Rat) := lt_of_lt_of_le h1 (Int.le_ceil q)
    have h3 : ⌊q⌋ < ⌈q⌉ := by exact_mod_cast h2
    omega
  unfold pyRoundInt
  split_ifs with h1 h2 h3
  · exact hfc
  · exact key h1
  · exact hfc
  · exact key h1

theorem pyRoundInt_nonneg {q : Rat} (h : 0 ≤ q) : 0 ≤ pyRoundInt q :=
  le_trans (Int.floor_nonneg.mpr h) (floor_le_pyRoundInt q)

theorem pyRoundInt_le_of_le {q : Rat} {n : Int} (h : q ≤ n) : pyRoundInt q ≤ n :=
  le_trans (pyRoundInt_le_ceil q) (Int.ceil_le.mpr (by exact_mod_cast h))

theorem pyRound2_nonneg {q : Rat} (h : 0 ≤ q) : 0 ≤ pyRound2 q := by
  unfold pyRound2
  have : (0 : Rat) ≤ (pyRoundInt (q * 100) : Rat) := by
    exact_mod_cast pyRoundInt_nonneg (by positivity)
  positivity

theorem pyRound2_le_of_le {q : Rat} {n : Int} (h : q ≤ n) : pyRound2 q ≤ n := by
  unfold pyRound2
  have h1 : q * 100 ≤ ((n * 100 : Int) : Rat) := by push_cast; linarith
  have h2 : pyRoundInt (q * 100) ≤ n * 100 := pyRoundInt_le_of_le h1
  rw [div_le_iff (by norm_num : (0 : Rat) < 100)]
  exact_mod_cast h2

theorem pyRoundInt_intCast (n : Int) : pyRoundInt ((n : Int) : Rat) = n := by
  unfold pyRoundInt
  rw [Int.floor_intCast, sub_self]
  norm_num

theorem pyRound2_intCast (n : Int) : pyRound2 ((n : Int) : Rat) = n := by
  unfold pyRound2
  have h : ((n : Rat) * 100) = ((n * 100 : Int) : Rat) := by push_cast; ring
  rw [h, pyRoundInt_intCast]
  push_cast
  field_simp

theorem pyRound2_zero : pyRound2 0 = 0 := by
  have h := pyRound2_intCast 0
  simpa using h

theorem rate_formula_nonneg (p f : Nat) :
    0 ≤ pyRound2 ((p : Rat) / ((p : Rat) + (f : Rat)) * 100) := by
  apply pyRound2_nonneg
  positivity

theorem rate_formula_le (p f : Nat) :
    pyRound2 ((p : Rat) / ((p : Rat) + (f : Rat)) * 100) ≤ 100 := by
  have h : (p : Rat) / ((p : Rat) + (f : Rat)) * 100 ≤ ((100 : Int) : Rat) := by
    rcases Nat.eq_zero_or_pos (p + f) with h0 | h0
    · have hp : p = 0 := by omega
      have hf : f = 0 := by omega
      subst hp; subst hf
      norm_num
    · have hd : (0 : Rat) < (p : Rat) + (f : Rat) := by
        have : (0 : Rat) < ((p + f : Nat) : Rat) := by exact_mod_cast h0
        push_cast at this
        linarith
      have hle : (p : Rat) ≤ (p : Rat) + (f : Rat) := by
        have : (0 : Rat) ≤ (f : Rat) := by positivity
        linarith
      have : (p : Rat) / ((p : Rat) + (f : Rat)) ≤ 1 := (div_le_one hd).mpr hle
      push_cast
      linarith
  exact pyRound2_le_of_le h

/-! ## Producer loop lemmas -/

theorem start_production_eq (interval : Rat) (mp : Nat) :
    ∀ (os : List Bool) (s : ProducerState),
    start_production interval mp s os =
      ⟨(prodSpec interval mp s.posts_generated s.gen_calls os).1,
       (prodSpec interval mp s.posts_generated s.gen_calls os).2.1,
       s.enqueued ++ (prodSpec interval mp s.posts_generated s.gen_calls os).2.2.1,
       s.sleeps ++ (prodSpec interval mp s.posts_generated s.gen_calls os).2.2.2⟩
  | [], s => by cases s; simp [start_production, prodSpec]
  | b :: rest, s => by
    cases s with
    | mk p g enq sl =>
      by_cases hp : p < mp
      · have ih := start_production_eq interval mp rest (produceStep interval ⟨p, g, enq, sl⟩ b)
        cases b <;>
          simp [start_production, prodSpec, produceStep, hp] at ih ⊢ <;>
          rw [ih] <;> simp
      · simp [start_production, prodSpec, hp]

theorem prodSpec_nil (interval : Rat) (mp p g : Nat) :
    prodSpec interval mp p g [] = (p, g, [], []) := rfl

theorem prodSpec_cons_full (interval : Rat) (mp p g : Nat) (rest : List Bool)
    (hp : p < mp) :
    prodSpec interval mp p g (true :: rest) =
      ((prodSpec interval mp p (g + 1) rest).1,
       (prodSpec interval mp p (g + 1) rest).2.1,
       (prodSpec interval mp p (g + 1) rest).2.2.1,
       interval * 2 :: (prodSpec interval mp p (g + 1) rest).2.2.2) := by
  simp [prodSpec, hp]

theorem prodSpec_cons_ok (interval : Rat) (mp p g : Nat) (rest : List Bool)
    (hp : p < mp) :
    prodSpec interval mp p g (false :: rest) =
      ((prodSpec interval mp (p + 1) (g + 1) rest).1,
       (prodSpec interval mp (p + 1) (g + 1) rest).2.1,
       g :: (prodSpec interval mp (p + 1) (g + 1) rest).2.2.1,
       interval :: (prodSpec interval mp (p + 1) (g + 1) rest).2.2.2) := by
  simp [prodSpec, hp]

theorem prodSpec_cons_stop (interval : Rat) (mp p g : Nat) (b : Bool)
    (rest : List Bool) (hp : ¬ p < mp) :
    prodSpec interval mp p g (b :: rest) = (p, g, [], []) := by
  simp [prodSpec, hp]

theorem prodSpec_le_gen (interval : Rat) (mp : Nat) :
    ∀ (os : List Bool) (p g : Nat), g ≤ (prodSpec interval mp p g os).2.1
  | [], p, g => by simp [prodSpec_nil]
  | b :: rest, p, g => by
    by_cases hp : p < mp
    · cases b
      · have ih := prodSpec_le_gen interval mp rest (p + 1) (g + 1)
        rw [prodSpec_cons_ok interval mp p g rest hp]
        dsimp only
        omega
      · have ih := prodSpec_le_gen interval mp rest p (g + 1)
        rw [prodSpec_cons_full interval mp p g rest hp]
        dsimp only
        omega
    · rw [prodSpec_cons_stop interval mp p g _ rest hp]

theorem prodSpec_gen_le (interval : Rat) (mp : Nat) :
    ∀ (os : List Bool) (p g : Nat), (prodSpec interval mp p g os).2.1 ≤ g + os.length
  | [], p, g => by simp [prodSpec_nil]
  | b :: rest, p, g => by
    by_cases hp : p < mp
    · cases b
      · have ih := prodSpec_gen_le interval mp rest (p + 1) (g + 1)
        rw [prodSpec_cons_ok interval mp p g rest hp]
        dsimp only
        simp only [List.length_cons]
        omega
      · have ih := prodSpec_gen_le interval mp rest p (g + 1)
        rw [prodSpec_cons_full interval mp p g rest hp]
        dsimp only
        simp only [List.length_cons]
        omega
    · rw [prodSpec_cons_stop interval mp p g _ rest hp]
      dsimp only
      omega

theorem prodSpec_posts (interval : Rat) (mp : Nat) :
    ∀ (os : List Bool) (p g : Nat),
    (prodSpec interval mp p g os).1 = p + (prodSpec interval mp p g os).2.2.1.length
  | [], p, g => by simp [prodSpec_nil]
  | b :: rest, p, g => by
    by_cases hp : p < mp
    · cases b
      · have ih := prodSpec_posts interval mp rest (p + 1) (g + 1)
        rw [prodSpec_cons_ok interval mp p g rest hp]
        dsimp only
        simp only [List.length_cons]
        omega
      · have ih := prodSpec_posts interval mp rest p (g + 1)
        rw [prodSpec_cons_full interval mp p g rest hp]
        dsimp only
        exact ih
    · rw [prodSpec_cons_stop interval mp p g _ rest hp]
      rfl

theorem prodSpec_mem (interval : Rat) (mp : Nat) :
    ∀ (os : List Bool) (p g : Nat), ∀ r ∈ (prodSpec interval mp p g os).2.2.1,
    g ≤ r ∧ r < (prodSpec interval mp p g os).2.1
  | [], p, g => by simp [prodSpec_nil]
  | b :: rest, p, g => by
    by_cases hp : p < mp
    · cases b
      · have ih := prodSpec_mem interval mp rest (p + 1) (g + 1)
        have hg := prodSpec_le_gen interval mp rest (p + 1) (g + 1)
        intro r hr
        rw [prodSpec_cons_ok interval mp p g rest hp] at hr ⊢
        dsimp only at hr ⊢
        simp only [List.mem_cons] at hr
        rcases hr with hr | hr
        · have h2 := prodSpec_le_gen interval mp rest (p + 1) (g + 1)
          omega
        · have := ih r hr
          omega
      · have ih := prodSpec_mem interval mp rest p (g + 1)
        intro r hr
        rw [prodSpec_cons_full interval mp p g rest hp] at hr ⊢
        dsimp only at hr ⊢
        have := ih r hr
        omega
    · intro r hr
      rw [prodSpec_cons_stop interval mp p g _ rest hp] at hr
      dsimp only at hr
      simp at hr

theorem prodSpec_pairwise (interval : Rat) (mp : Nat) :
    ∀ (os : List Bool) (p g : Nat),
    (prodSpec interval mp p g os).2.2.1.Pairwise (· < ·)
  | [], p, g => by simp [prodSpec_nil]
  | b :: rest, p, g => by
    by_cases hp : p < mp
    · cases b
      · have ih := prodSpec_pairwise interval mp rest (p + 1) (g + 1)
        have hm := prodSpec_mem interval mp rest (p + 1) (g + 1)
        rw [prodSpec_cons_ok interval mp p g rest hp]
        dsimp only
        refine List.Pairwise.cons ?_ ih
        intro r hr
        have := hm r hr
        omega
      · have ih := prodSpec_pairwise interval mp rest p (g + 1)
        rw [prodSpec_cons_full interval mp p g rest hp]
        dsimp only
        exact ih
    · rw [prodSpec_cons_stop interval mp p g _ rest hp]
      dsimp only
      simp

theorem prodSpec_sleeps (interval : Rat) (mp : Nat) :
    ∀ (os : List Bool) (p g : Nat),
    (prodSpec interval mp p g os).2.2.2 =
      (os.take ((prodSpec interval mp p g os).2.1 - g)).map
        (fun b => if b then interval * 2 else interval)
  | [], p, g => by simp [prodSpec_nil]
  | b :: rest, p, g => by
    by_cases hp : p < mp
    · cases b
      · have ih := prodSpec_sleeps interval mp rest (p + 1) (g + 1)
        have hg := prodSpec_le_gen interval mp rest (p + 1) (g + 1)
        rw [prodSpec_cons_ok interval mp p g rest hp]
        dsimp only
        have harith : (prodSpec interval mp (p + 1) (g + 1) rest).2.1 - g =
            ((prodSpec interval mp (p + 1) (g + 1) rest).2.1 - (g + 1)) + 1 := by omega
        rw [harith, List.take_succ_cons, List.map_cons, ih]
        simp
      · have ih := prodSpec_sleeps interval mp rest p (g + 1)
        have hg := prodSpec_le_gen interval mp rest p (g + 1)
        rw [prodSpec_cons_full interval mp p g rest hp]
        dsimp only
        have harith : (prodSpec interval mp p (g + 1) rest).2.1 - g =
            ((prodSpec interval mp p (g + 1) rest).2.1 - (g + 1)) + 1 := by omega
        rw [harith, List.take_succ_cons, List.map_cons, ih]
        simp
    · rw [prodSpec_cons_stop interval mp p g _ rest hp]
      dsimp only
      simp

theorem prodSpec_drop (interval : Rat) (mp : Nat) :
    ∀ (os : List Bool) (p g : Nat) (k : Nat), os.getD k true = true →
    ¬ (g + k) ∈ (prodSpec interval mp p g os).2.2.1
  | [], p, g, k => by simp [prodSpec_nil]
  | b :: rest, p, g, k => by
    by_cases hp : p < mp
    · cases b
      · -- successful put: the head record g is enqueued
        have ih := prodSpec_drop interval mp rest (p + 1) (g + 1)
        cases k with
        | zero => simp
        | succ k =>
          intro hk
          simp only [List.getD_cons_succ] at hk
          have h1 := ih k hk
          intro hmem
          rw [prodSpec_cons_ok interval mp p g rest hp] at hmem
          dsimp only at hmem
          simp only [List.mem_cons] at hmem
          rcases hmem with hmem | hmem
          · omega
          · have heq : g + 1 + k = g + (k + 1) := by omega
            rw [heq] at h1
            exact h1 hmem
      · -- Full: the head record g is dropped
        have ih := prodSpec_drop interval mp rest p (g + 1)
        have hm := prodSpec_mem interval mp rest p (g + 1)
        cases k with
        | zero =>
          intro _
          intro hmem
          rw [prodSpec_cons_full interval mp p g rest hp] at hmem
          dsimp only at hmem
          have := hm _ hmem
          omega
        | succ k =>
          intro hk
          simp only [List.getD_cons_succ] at hk
          have h1 := ih k hk
          intro hmem
          rw [prodSpec_cons_full interval mp p g rest hp] at hmem
          dsimp only at hmem
          have heq : g + 1 + k = g + (k + 1) := by omega
          rw [heq] at h1
          exact h1 hmem
    · intro _ hmem
      rw [prodSpec_cons_stop interval mp p g _ rest hp] at hmem
      dsimp only at hmem
      simp at hmem

/-! ## Claims -/

/-- Claim C1, counterexample: run the production loop with a channel that is
full at the first put and free at the second. Two records are generated
(`gen_calls = 2`) but only the second one (generation index 1) is ever
enqueued: the record generated in the `Full` iteration is dropped, not
retried, contradicting the claim that no generated record is dropped. -/
theorem C1_counterexample :
    (start_production 1 10 pInit [true, false]).gen_calls = 2 ∧
    (start_production 1 10 pInit [true, false]).enqueued = [1] ∧
    ¬ (0 ∈ (start_production 1 10 pInit [true, false]).enqueued) := by
  refine ⟨rfl, rfl, ?_⟩
  simp [start_production, produceStep, pInit]

/-- Claim C1 (amended): in the producer loop, when a put raises `Full` the
producer does back off by sleeping `interval * 2` (proportional to the
configured interval) and continues; but the `continue` restarts the loop
body, so a fresh record is generated and the record whose put failed is
dropped, never enqueued. Formally, for every run from the start state:
successful puts alone are counted, at most one put per generated record,
sleeps are `interval * 2` exactly at the Full iterations and `interval`
otherwise, and the record generated at any Full iteration is never
enqueued. -/
theorem C1_theorem (interval : Rat) (mp : Nat) (os : List Bool) :
    (start_production interval mp pInit os).posts_generated =
      (start_production interval mp pInit os).enqueued.length ∧
    (start_production interval mp pInit os).gen_calls ≤ os.length ∧
    (start_production interval mp pInit os).sleeps =
      (os.take (start_production interval mp pInit os).gen_calls).map
        (fun b => if b then interval * 2 else interval) ∧
    (start_production interval mp pInit os).enqueued.Pairwise (· < ·) ∧
    (∀ r ∈ (start_production interval mp pInit os).enqueued,
      r < (start_production interval mp pInit os).gen_calls) ∧
    (∀ k, k < (start_production interval mp pInit os).gen_calls →
      os.getD k true = true →
      ¬ k ∈ (start_production interval mp pInit os).enqueued) := by
  have h := start_production_eq interval mp os pInit
  rw [h]
  simp only [pInit, List.nil_append]
  refine ⟨?_, ?_, ?_, ?_, ?_, ?_⟩
  · have := prodSpec_posts interval mp os 0 0
    omega
  · have := prodSpec_gen_le interval mp os 0 0
    omega
  · have := prodSpec_sleeps interval mp os 0 0
    simpa using this
  · exact prodSpec_pairwise interval mp os 0 0
  · intro r hr
    exact (prodSpec_mem interval mp os 0 0 r hr).2
  · intro k _ hk
    have := prodSpec_drop interval mp os 0 0 k hk
    simpa using this

/-- Claim C1, witness for the amended statement at a concrete run. -/
theorem C1_witness :
    (start_production 1 10 pInit [true, false, true]).posts_generated =
      (start_production 1 10 pInit [true, false, true]).enqueued.length ∧
    ¬ (0 ∈ (start_production 1 10 pInit [true, false, true]).enqueued) ∧
    ¬ (2 ∈ (start_production 1 10 pInit [true, false, true]).enqueued) := by
  have h := C1_theorem 1 10 [true, false, true]
  refine ⟨h.1, ?_, ?_⟩
  · exact h.2.2.2.2.2 0 (by decide) (by decide)
  · exact h.2.2.2.2.2 2 (by decide) (by decide)

/-- Claim C2, counterexample: the engagement tuple (0, 0, 0, 1) has
`views = 1 ≠ 0` yet its engagement rate is exactly 0, refuting the clause
that the rate equals 0 exactly when `views = 0`. -/
theorem C2_counterexample :
    engagement_rate 0 0 0 1 = 0 ∧ (1 : Int) ≠ 0 := by
  constructor
  · unfold engagement_rate
    norm_num [pyRound2_zero]
  · decide

/-- Claim C2 (amended): for every non-negative engagement tuple, the
engagement rate computed by `transform_post` is non-negative, is 0 whenever
`views = 0`, and for `views > 0` equals
`(likes+shares+comments)/views*100` rounded to 2 decimals — which can
itself be 0 (for instance when likes+shares+comments = 0), so rate 0 does
not imply `views = 0`. -/
theorem C2_theorem (l s c v : Int) (hl : 0 ≤ l) (hs : 0 ≤ s) (hc : 0 ≤ c)
    (hv : 0 ≤ v) :
    0 ≤ engagement_rate (l : Rat) (s : Rat) (c : Rat) (v : Rat) ∧
    (v = 0 → engagement_rate (l : Rat) (s : Rat) (c : Rat) (v : Rat) = 0) ∧
    (0 < v → engagement_rate (l : Rat) (s : Rat) (c : Rat) (v : Rat) =
      pyRound2 (((l : Rat) + (s : Rat) + (c : Rat)) / (v : Rat) * 100)) := by
  refine ⟨?_, ?_, ?_⟩
  · unfold engagement_rate
    apply pyRound2_nonneg
    split_ifs with h
    · have h1 : (0 : Rat) ≤ (l : Rat) + (s : Rat) + (c : Rat) := by
        push_cast
        have : (0 : Rat) ≤ (l : Rat) := by exact_mod_cast hl
        have : (0 : Rat) ≤ (s : Rat) := by exact_mod_cast hs
        have : (0 : Rat) ≤ (c : Rat) := by exact_mod_cast hc
        linarith [show (0 : Rat) ≤ (l : Rat) from by exact_mod_cast hl,
          show (0 : Rat) ≤ (s : Rat) from by exact_mod_cast hs,
          show (0 : Rat) ≤ (c : Rat) from by exact_mod_cast hc]
      have h2 : (0 : Rat) ≤ (v : Rat) := by exact_mod_cast hv
      positivity
    · exact le_refl 0
  · intro h
    subst h
    unfold engagement_rate
    norm_num [pyRound2_zero]
  · intro h
    unfold engagement_rate
    rw [if_pos]
    exact_mod_cast h

/-- Claim C2, witness for the amended statement at a concrete tuple. -/
theorem C2_witness :
    0 ≤ engagement_rate ((2 : Int) : Rat) ((0 : Int) : Rat) ((0 : Int) : Rat)
      ((4 : Int) : Rat) :=
  (C2_theorem 2 0 0 4 (by decide) (by decide) (by decide) (by decide)).1

/-- Claim C3, counterexample: with zero records attempted
(`processed + failed = 0`), `get_analytics` hits its empty-data guard and
returns the plain no-data message — the analytics snapshot carries no
`success_rate` at all (modelled as `none`), rather than defining it as 0. -/
theorem C3_counterexample :
    get_analytics_success_rate initialState = none ∧
    initialState.processed_posts + initialState.failed_posts = 0 := ⟨rfl, rfl⟩

/-- Claim C3 (amended): the success rate computed by `get_stats` equals
`processed/(processed+failed)*100` rounded to 2 decimals when any record was
attempted, is defined as 0 (guarded, no division error) when
`processed + failed = 0`, and always lies in [0, 100]. `get_analytics`
emits a success rate only when at least one record has been processed
(otherwise it returns a no-data message with no rate); whenever it does,
that rate equals the same rounded formula and lies in [0, 100]. -/
theorem C3_theorem :
    (∀ p f : Nat,
      0 ≤ success_rate p f ∧ success_rate p f ≤ 100 ∧
      (p + f = 0 → success_rate p f = 0) ∧
      (0 < p + f → success_rate p f =
        pyRound2 ((p : Rat) / ((p : Rat) + (f : Rat)) * 100))) ∧
    (∀ (st : ConsumerState) (r : Rat), get_analytics_success_rate st = some r →
      r = pyRound2 ((st.processed_posts : Rat) /
        ((st.processed_posts : Rat) + (st.failed_posts : Rat)) * 100) ∧
      0 ≤ r ∧ r ≤ 100) := by
  constructor
  · intro p f
    refine ⟨?_, ?_, ?_, ?_⟩
    · unfold success_rate
      split_ifs with h
      · exact rate_formula_nonneg p f
      · exact le_refl 0
    · unfold success_rate
      split_ifs with h
      · exact rate_formula_le p f
      · norm_num
    · intro h
      unfold success_rate
      rw [if_neg]
      omega
    · intro h
      unfold success_rate
      rw [if_pos h]
  · intro st r hr
    unfold get_analytics_success_rate at hr
    by_cases h : st.processed_data.isEmpty
    · rw [if_pos h] at hr
      cases hr
    · rw [if_neg h] at hr
      have h2 := Option.some.inj hr
      refine ⟨h2.symm, ?_, ?_⟩
      · rw [← h2]; exact rate_formula_nonneg _ _
      · rw [← h2]; exact rate_formula_le _ _

/-- Claim C3, witness for the amended statement at concrete counts. -/
theorem C3_witness : success_rate 0 0 = 0 ∧ success_rate 3 1 ≤ 100 :=
  ⟨(C3_theorem.1 0 0).2.2.1 rfl, (C3_theorem.1 3 1).2.1⟩

/-- Claim C8: the popularity score computed by `transform_post` equals
`likes*1.0 + shares*3.0 + comments*2.0 + views*0.1` with no rounding, and is
strictly increasing in shares with the other fields held fixed. -/
theorem C8_theorem (l s c v s2 : Int) (hs : s < s2) :
    popularity_score (l : Rat) (s : Rat) (c : Rat) (v : Rat) =
      (l : Rat) * 1 + (s : Rat) * 3 + (c : Rat) * 2 + (v : Rat) * (1 / 10) ∧
    popularity_score (l : Rat) (s : Rat) (c : Rat) (v : Rat) <
      popularity_score (l : Rat) (s2 : Rat) (c : Rat) (v : Rat) := by
  constructor
  · rfl
  · unfold popularity_score
    have h : (s : Rat) < (s2 : Rat) := by exact_mod_cast hs
    linarith

/-- Claim C8, witness at a concrete pair of tuples differing only in shares. -/
theorem C8_witness :
    popularity_score ((1 : Int) : Rat) ((2 : Int) : Rat) ((3 : Int) : Rat)
      ((4 : Int) : Rat) <
    popularity_score ((1 : Int) : Rat) ((5 : Int) : Rat) ((3 : Int) : Rat)
      ((4 : Int) : Rat) :=
  (C8_theorem 1 2 3 4 5 (by decide)).2

/-! ## Validator lemmas -/

theorem validate_post_fst_eq (v : Value) :
    (validate_post v).1 = (validate_post v).2.isEmpty := rfl

theorem str_head_append {p x : String} {c : Char} (h : p.data.head? = some c) :
    (p ++ x).data.head? = some c := by
  have hd : (p ++ x).data = p.data ++ x.data := rfl
  rw [hd]
  cases hpd : p.data with
  | nil =>
    rw [hpd] at h
    simp at h
  | cons a t =>
    rw [hpd] at h
    simp only [List.cons_append, List.head?_cons] at h ⊢
    simpa using h

theorem str_ne_of_head {a b : String} {c1 c2 : Char}
    (h1 : a.data.head? = some c1) (h2 : b.data.head? = some c2) (hne : c1 ≠ c2) :
    a ≠ b := by
  intro h
  rw [h] at h1
  rw [h1] at h2
  exact hne (Option.some.inj h2)

theorem checkRequired_ne_lenMsg (d : List (String × Value)) :
    ∀ e ∈ checkRequired d, e ≠ ("content exceeds maximum length") := by
  intro e he
  unfold checkRequired at he
  dsimp only at he
  split_ifs at he with h
  · simp at he
  · simp at he
    subst he
    exact str_ne_of_head
      (@str_head_append ("Missing required fields: ") _ 'M' rfl) rfl (by decide)

theorem checkPostId_ne_lenMsg (d : List (String × Value)) :
    ∀ e ∈ checkPostId d, e ≠ ("content exceeds maximum length") := by
  intro e he
  unfold checkPostId at he
  cases hg : dictGet d ("post_id") with
  | none => rw [hg] at he; simp at he
  | some v =>
    rw [hg] at he
    dsimp only at he
    split_ifs at he with h
    · simp at he
    · simp at he
      subst he
      decide

theorem checkUserId_ne_lenMsg (d : List (String × Value)) :
    ∀ e ∈ checkUserId d, e ≠ ("content exceeds maximum length") := by
  intro e he
  unfold checkUserId at he
  cases hg : dictGet d ("user_id") with
  | none => rw [hg] at he; simp at he
  | some v =>
    rw [hg] at he
    dsimp only at he
    cases ha : pyAsInt v with
    | none =>
      rw [ha] at he
      simp at he
      subst he
      decide
    | some n =>
      rw [ha] at he
      dsimp only at he
      split_ifs at he with h
      · simp at he
      · simp at he
        subst he
        decide

theorem checkPlatform_ne_lenMsg (d : List (String × Value)) :
    ∀ e ∈ (checkPlatform d).1, e ≠ ("content exceeds maximum length") := by
  intro e he
  unfold checkPlatform at he
  cases hg : dictGet d ("platform") with
  | none => rw [hg] at he; simp at he
  | some v =>
    rw [hg] at he
    dsimp only at he
    cases hm : pyMemStrSet v valid_platforms with
    | error ex => rw [hm] at he; simp at he
    | ok bv =>
      rw [hm] at he
      cases bv
      · simp at he
        subst he
        exact str_ne_of_head
          (@str_head_append ("Invalid platform: ") _ 'I' rfl) rfl (by decide)
      · simp at he

theorem checkSentiment_ne_lenMsg (d : List (String × Value)) :
    ∀ e ∈ (checkSentiment d).1, e ≠ ("content exceeds maximum length") := by
  intro e he
  unfold checkSentiment at he
  cases hg : dictGet d ("sentiment") with
  | none => rw [hg] at he; simp at he
  | some v =>
    rw [hg] at he
    dsimp only at he
    cases hm : pyMemStrSet v valid_sentiments with
    | error ex => rw [hm] at he; simp at he
    | ok bv =>
      rw [hm] at he
      cases bv
      · simp at he
        subst he
        exact str_ne_of_head
          (@str_head_append ("Invalid sentiment: ") _ 'I' rfl) rfl (by decide)
      · simp at he

theorem checkCategory_ne_lenMsg (d : List (String × Value)) :
    ∀ e ∈ (checkCategory d).1, e ≠ ("content exceeds maximum length") := by
  intro e he
  unfold checkCategory at he
  cases hg : dictGet d ("category") with
  | none => rw [hg] at he; simp at he
  | some v =>
    rw [hg] at he
    dsimp only at he
    cases hm : pyMemStrSet v valid_categories with
    | error ex => rw [hm] at he; simp at he
    | ok bv =>
      rw [hm] at he
      cases bv
      · simp at he
        subst he
        exact str_ne_of_head
          (@str_head_append ("Invalid category: ") _ 'I' rfl) rfl (by decide)
      · simp at he

theorem checkEngVal_ne_lenMsg (e2 : List (String × Value)) (k : String) :
    ∀ e ∈ checkEngVal e2 k, e ≠ ("content exceeds maximum length") := by
  intro e he
  unfold checkEngVal at he
  cases hg : dictGet e2 k with
  | none => rw [hg] at he; simp at he
  | some v =>
    rw [hg] at he
    dsimp only at he
    cases ha : pyAsInt v with
    | none =>
      rw [ha] at he
      simp at he
      subst he
      exact str_ne_of_head
        (str_head_append (@str_head_append ("engagement.") k 'e' rfl)) rfl (by decide)
    | some n =>
      rw [ha] at he
      dsimp only at he
      split_ifs at he with h
      · simp at he
        subst he
        exact str_ne_of_head
          (str_head_append (@str_head_append ("engagement.") k 'e' rfl)) rfl (by decide)
      · simp at he

theorem checkEngagement_ne_lenMsg (d : List (String × Value)) :
    ∀ e ∈ checkEngagement d, e ≠ ("content exceeds maximum length") := by
  intro e he
  unfold checkEngagement at he
  cases hg : dictGet d ("engagement") with
  | none => rw [hg] at he; simp at he
  | some v =>
    rw [hg] at he
    cases v with
    | vDict e2 =>
      dsimp only at he
      simp only [List.mem_append] at he
      rcases he with he | he
      · split_ifs at he with h
        · simp at he
        · simp at he
          subst he
          exact str_ne_of_head
            (@str_head_append ("Missing engagement fields: ") _ 'M' rfl) rfl (by decide)
      · rw [List.mem_flatten] at he
        obtain ⟨l, hl, hel⟩ := he
        rw [List.mem_map] at hl
        obtain ⟨k, _, hk⟩ := hl
        subst hk
        exact checkEngVal_ne_lenMsg e2 k e hel
    | vStr s => simp at he; subst he; decide
    | vInt n => simp at he; subst he; decide
    | vBool b => simp at he; subst he; decide
    | vRat q => simp at he; subst he; decide
    | vList l => simp at he; subst he; decide
    | vNone => simp at he; subst he; decide

theorem checkTimestamp_ne_lenMsg (m : List (String × Value)) :
    ∀ e ∈ checkTimestamp m, e ≠ ("content exceeds maximum length") := by
  intro e he
  unfold checkTimestamp at he
  cases hg : dictGet m ("timestamp") with
  | none => rw [hg] at he; simp at he
  | some v =>
    rw [hg] at he
    cases v with
    | vStr s =>
      dsimp only at he
      split_ifs at he with h
      · simp at he
      · simp at he; subst he; decide
    | vInt n => simp at he; subst he; decide
    | vBool b => simp at he; subst he; decide
    | vRat q => simp at he; subst he; decide
    | vList l => simp at he; subst he; decide
    | vDict d2 => simp at he; subst he; decide
    | vNone => simp at he; subst he; decide

theorem checkHashtags_ne_lenMsg (m : List (String × Value)) :
    ∀ e ∈ checkHashtags m, e ≠ ("content exceeds maximum length") := by
  intro e he
  unfold checkHashtags at he
  cases hg : dictGet m ("hashtags") with
  | none => rw [hg] at he; simp at he
  | some v =>
    rw [hg] at he
    cases v with
    | vList l =>
      dsimp only at he
      split_ifs at he with h
      · simp at he
      · simp at he; subst he; decide
    | vStr s => simp at he; subst he; decide
    | vInt n => simp at he; subst he; decide
    | vBool b => simp at he; subst he; decide
    | vRat q => simp at he; subst he; decide
    | vDict d2 => simp at he; subst he; decide
    | vNone => simp at he; subst he; decide

theorem checkMetadata_ne_lenMsg (d : List (String × Value)) :
    ∀ e ∈ checkMetadata d, e ≠ ("content exceeds maximum length") := by
  intro e he
  unfold checkMetadata at he
  cases hg : dictGet d ("metadata") with
  | none => rw [hg] at he; simp at he
  | some v =>
    rw [hg] at he
    cases v with
    | vDict m =>
      dsimp only at he
      rw [List.mem_append] at he
      rcases he with he | he
      · exact checkTimestamp_ne_lenMsg m e he
      · exact checkHashtags_ne_lenMsg m e he
    | vStr s => simp at he; subst he; decide
    | vInt n => simp at he; subst he; decide
    | vBool b => simp at he; subst he; decide
    | vRat q => simp at he; subst he; decide
    | vList l => simp at he; subst he; decide
    | vNone => simp at he; subst he; decide

theorem validateChecks_mem (d : List (String × Value)) :
    ∀ e ∈ (validateChecks d).1,
    e ∈ checkRequired d ∨ e ∈ checkPostId d ∨ e ∈ checkUserId d ∨
    e ∈ (checkPlatform d).1 ∨ e ∈ checkContent d ∨ e ∈ checkEngagement d ∨
    e ∈ checkMetadata d ∨ e ∈ (checkSentiment d).1 ∨ e ∈ (checkCategory d).1 := by
  intro e he
  rcases hp : checkPlatform d with ⟨e2, exc2⟩
  rcases hs : checkSentiment d with ⟨e4, exc4⟩
  rcases hc : checkCategory d with ⟨e5, exc5⟩
  cases exc2 with
  | some ex =>
    simp only [validateChecks, hp] at he
    simp only [List.mem_append] at he
    dsimp only
    tauto
  | none =>
    cases exc4 with
    | some ex =>
      simp only [validateChecks, hp, hs] at he
      simp only [List.mem_append] at he
      dsimp only
      tauto
    | none =>
      cases exc5 with
      | some ex =>
        simp only [validateChecks, hp, hs, hc] at he
        simp only [List.mem_append] at he
        dsimp only
        tauto
      | none =>
        simp only [validateChecks, hp, hs, hc] at he
        simp only [List.mem_append] at he
        dsimp only
        tauto

theorem validateChecks_none (d : List (String × Value))
    (h : (validateChecks d).2 = none) :
    (validateChecks d).1 =
      checkRequired d ++ checkPostId d ++ checkUserId d ++ (checkPlatform d).1 ++
      checkContent d ++ checkEngagement d ++ checkMetadata d ++
      (checkSentiment d).1 ++ (checkCategory d).1 := by
  rcases hp : checkPlatform d with ⟨e2, exc2⟩
  rcases hs : checkSentiment d with ⟨e4, exc4⟩
  rcases hc : checkCategory d with ⟨e5, exc5⟩
  cases exc2 with
  | some ex => simp only [validateChecks, hp] at h; cases h
  | none =>
    cases exc4 with
    | some ex => simp only [validateChecks, hp, hs] at h; cases h
    | none =>
      cases exc5 with
      | some ex => simp only [validateChecks, hp, hs, hc] at h; cases h
      | none =>
        simp only [validateChecks, hp, hs, hc]
        simp [List.append_assoc]

theorem validateChecks_prefix (d : List (String × Value)) :
    ∃ r, (validateChecks d).1 =
      checkRequired d ++ (checkPostId d ++ (checkUserId d ++ r)) := by
  rcases hp : checkPlatform d with ⟨e2, exc2⟩
  rcases hs : checkSentiment d with ⟨e4, exc4⟩
  rcases hc : checkCategory d with ⟨e5, exc5⟩
  cases exc2 with
  | some ex =>
    refine ⟨e2, ?_⟩
    simp only [validateChecks, hp]
    simp [List.append_assoc]
  | none =>
    cases exc4 with
    | some ex =>
      refine ⟨e2 ++ (checkContent d ++ checkEngagement d ++ checkMetadata d) ++ e4, ?_⟩
      simp only [validateChecks, hp, hs]
      simp [List.append_assoc]
    | none =>
      cases exc5 with
      | some ex =>
        refine ⟨e2 ++ (checkContent d ++ checkEngagement d ++ checkMetadata d) ++
          e4 ++ e5, ?_⟩
        simp only [validateChecks, hp, hs, hc]
        simp [List.append_assoc]
      | none =>
        refine ⟨e2 ++ (checkContent d ++ checkEngagement d ++ checkMetadata d) ++
          e4 ++ e5, ?_⟩
        simp only [validateChecks, hp, hs, hc]
        simp [List.append_assoc]

theorem validate_post_no_lenMsg (d : List (String × Value))
    (hc : ¬ ("content exceeds maximum length") ∈ checkContent d) :
    ¬ ("content exceeds maximum length") ∈ (validate_post (vDict d)).2 := by
  intro hmem
  have hsplit : (validate_post (vDict d)).2 =
      (validateChecks d).1 ++ (match (validateChecks d).2 with
        | none => []
        | some e => [("Validation error: ") ++ e]) := rfl
  rw [hsplit] at hmem
  rw [List.mem_append] at hmem
  rcases hmem with hmem | hmem
  · have h9 := validateChecks_mem d _ hmem
    rcases h9 with h | h | h | h | h | h | h | h | h
    · exact checkRequired_ne_lenMsg d _ h rfl
    · exact checkPostId_ne_lenMsg d _ h rfl
    · exact checkUserId_ne_lenMsg d _ h rfl
    · exact checkPlatform_ne_lenMsg d _ h rfl
    · exact hc h
    · exact checkEngagement_ne_lenMsg d _ h rfl
    · exact checkMetadata_ne_lenMsg d _ h rfl
    · exact checkSentiment_ne_lenMsg d _ h rfl
    · exact checkCategory_ne_lenMsg d _ h rfl
  · cases hg : (validateChecks d).2 with
    | none => rw [hg] at hmem; simp at hmem
    | some ex =>
      rw [hg] at hmem
      simp only [List.mem_singleton] at hmem
      exact absurd hmem.symm (str_ne_of_head
        (@str_head_append ("Validation error: ") _ 'V' rfl) rfl (by decide))

theorem dropWhile_ws_replicate (n : Nat) :
    (List.replicate n ' ').dropWhile Char.isWhitespace = [] := by
  induction n with
  | zero => rfl
  | succ n ih =>
    rw [List.replicate_succ, List.dropWhile_cons, if_pos (by decide)]
    exact ih

theorem pyStrip_replicate_ws (n : Nat) : pyStrip (List.replicate n ' ') = [] := by
  unfold pyStrip
  rw [dropWhile_ws_replicate]
  rfl

theorem dropWhile_ws_replicate_a (n : Nat) :
    (List.replicate n 'a').dropWhile Char.isWhitespace = List.replicate n 'a' := by
  cases n with
  | zero => rfl
  | succ m =>
    rw [List.replicate_succ, List.dropWhile_cons, if_neg (by decide)]

theorem pyStrip_replicate_a (n : Nat) :
    pyStrip (List.replicate n 'a') = List.replicate n 'a' := by
  unfold pyStrip
  rw [dropWhile_ws_replicate_a, List.reverse_replicate, dropWhile_ws_replicate_a,
    List.reverse_replicate]

/-! ## Claims C4, C9, C10 -/

/-- Claim C4: for every input value, including non-dicts, `validate_post`
returns a (valid, errors) pair (it is a total function of the embedding):
validity holds exactly when the error list is empty; when no check raises,
the error list is exactly the concatenation of all nine checks in order (no
stopping at the first failure); and an unexpected exception is caught and
converted into a generic validation error appended to the errors gathered
so far. -/
theorem C4_theorem (v : Value) :
    ((validate_post v).1 = true ↔ (validate_post v).2 = []) ∧
    ((validate_core v).2 = none → (validate_post v).2 = (validate_core v).1) ∧
    (∀ e, (validate_core v).2 = some e →
      (validate_post v).2 = (validate_core v).1 ++ [("Validation error: ") ++ e]) ∧
    (∀ d, (validateChecks d).2 = none → (validateChecks d).1 =
      checkRequired d ++ checkPostId d ++ checkUserId d ++ (checkPlatform d).1 ++
      checkContent d ++ checkEngagement d ++ checkMetadata d ++
      (checkSentiment d).1 ++ (checkCategory d).1) := by
  refine ⟨?_, ?_, ?_, ?_⟩
  · rw [validate_post_fst_eq]
    exact List.isEmpty_iff
  · intro h
    have hsplit : (validate_post v).2 =
        (validate_core v).1 ++ (match (validate_core v).2 with
          | none => []
          | some e => [("Validation error: ") ++ e]) := rfl
    rw [hsplit, h]
    simp
  · intro e h
    have hsplit : (validate_post v).2 =
        (validate_core v).1 ++ (match (validate_core v).2 with
          | none => []
          | some e => [("Validation error: ") ++ e]) := rfl
    rw [hsplit, h]
  · exact fun d h => validateChecks_none d h

/-- Claim C4, witness: a non-dict input raises inside the try block and the
exception is converted into a generic validation error. -/
theorem C4_witness :
    (validate_post (vInt 5)).2 =
      [("Validation error: ") ++ ("object has no attribute keys")] ∧
    (validate_post (vInt 5)).1 = false := by
  have h := (C4_theorem (vInt 5)).2.2.1 ("object has no attribute keys") rfl
  constructor
  · rw [h]
    rfl
  · rfl

/-- Claim C9, counterexample: a record whose content is a string of 10001
space characters. Its strip is empty, so the content check reports the
non-empty-string error and the `elif` length test never runs: validation
fails without the length-exceeded reason, refuting the claim that every
10001-character content yields the length-exceeded reason. -/
theorem C9_counterexample :
    (List.replicate 10001 ' ').length = 10001 ∧
    ¬ ("content exceeds maximum length") ∈
      (validate_post (vDict (mkRecord (vStr (List.replicate 10001 ' '))))).2 ∧
    (validate_post (vDict (mkRecord (vStr (List.replicate 10001 ' '))))).1 = false := by
  have hcc : checkContent (mkRecord (vStr (List.replicate 10001 ' '))) =
      [("content must be a non-empty string")] := by
    have hdg : dictGet (mkRecord (vStr (List.replicate 10001 ' '))) ("content") =
        some (vStr (List.replicate 10001 ' ')) := rfl
    unfold checkContent
    rw [hdg]
    dsimp only
    rw [pyStrip_replicate_ws]
    rfl
  refine ⟨by rw [List.length_replicate], ?_, ?_⟩
  · apply validate_post_no_lenMsg
    rw [hcc]
    intro hmem
    simp only [List.mem_singleton] at hmem
    exact absurd hmem (by decide)
  · rw [validate_post_fst_eq]
    have hexc : (validateChecks (mkRecord (vStr (List.replicate 10001 ' ')))).2 = none := rfl
    have hfull := validateChecks_none _ hexc
    have hsplit : (validate_post (vDict (mkRecord (vStr (List.replicate 10001 ' '))))).2 =
        (validateChecks (mkRecord (vStr (List.replicate 10001 ' ')))).1 ++ [] := by
      have : (validate_post (vDict (mkRecord (vStr (List.replicate 10001 ' '))))).2 =
          (validateChecks (mkRecord (vStr (List.replicate 10001 ' ')))).1 ++
          (match (validateChecks (mkRecord (vStr (List.replicate 10001 ' ')))).2 with
            | none => []
            | some e => [("Validation error: ") ++ e]) := rfl
      rw [this, hexc]
    have hmem : ("content must be a non-empty string") ∈
        (validate_post (vDict (mkRecord (vStr (List.replicate 10001 ' '))))).2 := by
      rw [hsplit, hfull, hcc]
      exact List.mem_append_left _ (List.mem_append_left _ (List.mem_append_left _
        (List.mem_append_left _ (List.mem_append_left _ (List.mem_append_right _
          (List.mem_singleton_self _))))))
    cases hl : (validate_post (vDict (mkRecord (vStr (List.replicate 10001 ' '))))).2 with
    | nil => rw [hl] at hmem; simp at hmem
    | cons a t => rfl

/-- Claim C9 (amended): a record whose content is a string of exactly 10000
characters never receives the content-length error; and a record whose
content is a string of 10001 characters with non-whitespace content (so the
non-empty-strip branch does not fire first), in a validation run where no
check raises an unexpected exception, fails validation with the
length-exceeded reason in its error list. -/
theorem C9_theorem (d : List (String × Value)) (cs : List Char) :
    (dictGet d ("content") = some (vStr cs) → cs.length = 10000 →
      ¬ ("content exceeds maximum length") ∈ (validate_post (vDict d)).2) ∧
    (dictGet d ("content") = some (vStr cs) → cs.length = 10001 →
      ¬ (pyStrip cs).isEmpty = true → (validateChecks d).2 = none →
      ("content exceeds maximum length") ∈ (validate_post (vDict d)).2 ∧
      (validate_post (vDict d)).1 = false) := by
  constructor
  · intro hcon hlen
    apply validate_post_no_lenMsg
    unfold checkContent
    rw [hcon]
    dsimp only
    split_ifs with h1 h2
    · decide
    · rw [hlen] at h2
      exact absurd h2 (by decide)
    · simp
  · intro hcon hlen hstrip hexc
    have hcc : checkContent d = [("content exceeds maximum length")] := by
      unfold checkContent
      rw [hcon]
      dsimp only
      rw [if_neg hstrip, if_pos (by rw [hlen]; decide)]
    have hfull := validateChecks_none d hexc
    have hsplit : (validate_post (vDict d)).2 =
        (validateChecks d).1 ++ (match (validateChecks d).2 with
          | none => []
          | some e => [("Validation error: ") ++ e]) := rfl
    have hmem : ("content exceeds maximum length") ∈ (validate_post (vDict d)).2 := by
      rw [hsplit, hexc, hfull, hcc]
      simp
    refine ⟨hmem, ?_⟩
    rw [validate_post_fst_eq]
    cases hl : (validate_post (vDict d)).2 with
    | nil => rw [hl] at hmem; simp at hmem
    | cons a t => rfl

/-- Claim C9, witness for the amended statement at concrete records: content
of 10000 letters passes the length check, content of 10001 letters fails
with the length-exceeded reason. -/
theorem C9_witness :
    (¬ ("content exceeds maximum length") ∈
      (validate_post (vDict (mkRecord (vStr (List.replicate 10000 'a'))))).2) ∧
    ("content exceeds maximum length") ∈
      (validate_post (vDict (mkRecord (vStr (List.replicate 10001 'a'))))).2 ∧
    (validate_post (vDict (mkRecord (vStr (List.replicate 10001 'a'))))).1 = false := by
  refine ⟨?_, ?_⟩
  · exact (C9_theorem (mkRecord (vStr (List.replicate 10000 'a')))
      (List.replicate 10000 'a')).1 rfl (by rw [List.length_replicate])
  · exact (C9_theorem (mkRecord (vStr (List.replicate 10001 'a')))
      (List.replicate 10001 'a')).2 rfl (by rw [List.length_replicate])
      (by
        rw [pyStrip_replicate_a, show (10001 : Nat) = 10000 + 1 from rfl,
          List.replicate_succ]
        decide)
      rfl

/-- Claim C10: a record lacking the `username` key fails validation (the
missing-required-fields check fires), even when every field of the data
model is present and well-formed: `username` is in the consumer required
field set although the data model does not list it. -/
theorem C10_theorem (d : List (String × Value))
    (h : dictHas d ("username") = false) :
    (validate_post (vDict d)).1 = false := by
  have hmem : ("username") ∈ required_fields.filter (fun k => !(dictHas d k)) := by
    rw [List.mem_filter]
    refine ⟨by decide, ?_⟩
    rw [h]
    rfl
  have hne : ¬ (required_fields.filter (fun k => !(dictHas d k))).isEmpty = true := by
    intro hIsE
    rw [List.isEmpty_iff] at hIsE
    rw [hIsE] at hmem
    simp at hmem
  have hcr : checkRequired d = [("Missing required fields: ") ++
      String.intercalate (", ") (required_fields.filter (fun k => !(dictHas d k)))] := by
    unfold checkRequired
    rw [if_neg hne]
  obtain ⟨r, hr⟩ := validateChecks_prefix d
  have hsplit : (validate_post (vDict d)).2 =
      (validateChecks d).1 ++ (match (validateChecks d).2 with
        | none => []
        | some e => [("Validation error: ") ++ e]) := rfl
  rw [validate_post_fst_eq, hsplit, hr, hcr]
  rfl

/-- Claim C10, witness: a record with every data-model field (identifier,
owner id, platform, content, topic, engagement, metadata, sentiment,
category) present and well-formed, but no `username`, is rejected. -/
theorem C10_witness : (validate_post (vDict noUsernameRecord)).1 = false :=
  C10_theorem noUsernameRecord rfl

/-! ## Claim C6 -/

theorem scoreGe_trans (a b c : Value) (h1 : scoreGe a b) (h2 : scoreGe b c) :
    scoreGe a c := by
  simp only [scoreGe, decide_eq_true_eq] at h1 h2 ⊢
  exact le_trans h2 h1

theorem scoreGe_total (a b : Value) : scoreGe a b || scoreGe b a := by
  simp only [scoreGe]
  rcases le_total (popKey a) (popKey b) with h | h
  · simp [h]
  · simp [h]

/-- Claim C6: the top-performing list of `get_analytics` is the first five
elements of a stable descending sort of the processed records by
popularity score: it has length `min 5 n`, is sorted descending, the sort
is a permutation of the data whose dropped suffix scores no higher than any
retained element (so it holds the 5 highest), and any two records with
equal scores appearing in insertion order also appear in that order in the
sorted output (stability: ties broken by insertion order). -/
theorem C6_theorem (data : List Value) :
    (top_posts data).length = min 5 data.length ∧
    List.Pairwise (fun a b => popKey b ≤ popKey a) (top_posts data) ∧
    (data.mergeSort scoreGe).Perm data ∧
    top_posts data ++ (data.mergeSort scoreGe).drop 5 = data.mergeSort scoreGe ∧
    (∀ x ∈ (data.mergeSort scoreGe).drop 5, ∀ y ∈ top_posts data,
      popKey x ≤ popKey y) ∧
    (∀ a b, popKey a = popKey b → [a, b].Sublist data →
      [a, b].Sublist (data.mergeSort scoreGe)) := by
  have hsorted := List.sorted_mergeSort scoreGe_trans scoreGe_total data
  refine ⟨?_, ?_, ?_, ?_, ?_, ?_⟩
  · simp [top_posts]
  · have hsub : (top_posts data).Sublist (data.mergeSort scoreGe) := by
      unfold top_posts
      exact List.take_sublist 5 _
    have hp := hsorted.sublist hsub
    exact hp.imp (fun h => by simpa [scoreGe] using h)
  · exact List.mergeSort_perm data scoreGe
  · unfold top_posts
    exact List.take_append_drop 5 _
  · intro x hx y hy
    have h := hsorted.rel_of_mem_take_of_mem_drop hy hx
    simpa [scoreGe] using h
  · intro a b heq hsub
    exact List.pair_sublist_mergeSort scoreGe_trans scoreGe_total
      (by simp [scoreGe, heq]) hsub

/-- Claim C6, witness: two records with equal scores keep their insertion
order in the sorted output. -/
theorem C6_witness : [tieA, tieB].Sublist ([tieA, tieB].mergeSort scoreGe) :=
  (C6_theorem [tieA, tieB]).2.2.2.2.2 tieA tieB rfl (List.Sublist.refl _)

/-! ## Claim C5 helper lemmas -/

theorem dictGet_dictSet_self :
    ∀ (d : List (String × Value)) (k : String) (v : Value),
    dictGet (dictSet d k v) k = some v
  | [], k, v => by simp [dictGet, dictSet]
  | (k2, w) :: rest, k, v => by
    by_cases h : k2 = k
    · simp [dictGet, dictSet, h]
    · simp [dictGet, dictSet, h, dictGet_dictSet_self rest k v]

theorem dictGet_dictSet_ne :
    ∀ (d : List (String × Value)) (k : String) (v : Value) (k2 : String),
    ¬ k2 = k → dictGet (dictSet d k v) k2 = dictGet d k2
  | [], k, v, k2, h => by
    simp [dictGet, dictSet]
    intro heq
    exact absurd heq.symm h
  | (k3, w) :: rest, k, v, k2, h => by
    by_cases h2 : k3 = k
    · have h3 : ¬ k3 = k2 := by
        rw [h2]
        exact fun heq => h heq.symm
      have h4 : ¬ k = k2 := fun heq => h heq.symm
      simp [dictSet, dictGet, h2, h3, h4]
    · by_cases h3 : k3 = k2
      · simp [dictSet, dictGet, h2, h3, h]
      · simp [dictSet, dictGet, h2, h3, dictGet_dictSet_ne rest k v k2 h]

theorem sumVals_bump : ∀ (m : List (Value × Nat)) (k : Value),
    sumVals (bump m k) = sumVals m + 1
  | [], k => by simp [sumVals, bump]
  | (k2, n) :: rest, k => by
    unfold bump
    by_cases h : pyKeyBeq k2 k = true
    · rw [if_pos h]
      simp only [sumVals, List.map_cons, List.sum_cons]
      omega
    · rw [if_neg h]
      have ih := sumVals_bump rest k
      simp only [sumVals, List.map_cons, List.sum_cons] at ih ⊢
      omega

theorem validate_true_dict (v : Value) (h : (validate_post v).1 = true) :
    ∃ d, v = vDict d := by
  cases v with
  | vDict d => exact ⟨d, rfl⟩
  | vStr s => cases h
  | vInt n => cases h
  | vBool b => cases h
  | vRat q => cases h
  | vList l => cases h
  | vNone => cases h

theorem validate_true_core (d : List (String × Value))
    (h : (validate_post (vDict d)).1 = true) :
    (validateChecks d).1 = [] ∧ (validateChecks d).2 = none := by
  rw [validate_post_fst_eq] at h
  have h2 := List.isEmpty_iff.mp h
  have hsplit : (validate_post (vDict d)).2 =
      (validateChecks d).1 ++ (match (validateChecks d).2 with
        | none => []
        | some e => [("Validation error: ") ++ e]) := rfl
  rw [hsplit] at h2
  rw [List.append_eq_nil] at h2
  refine ⟨h2.1, ?_⟩
  have h3 := h2.2
  cases hx : (validateChecks d).2 with
  | none => rfl
  | some e =>
    rw [hx] at h3
    cases h3

theorem validateChecks_exc (d : List (String × Value))
    (h : (validateChecks d).2 = none) :
    (checkPlatform d).2 = none ∧ (checkSentiment d).2 = none ∧
    (checkCategory d).2 = none := by
  rcases hp : checkPlatform d with ⟨e2, exc2⟩
  rcases hs : checkSentiment d with ⟨e4, exc4⟩
  rcases hc : checkCategory d with ⟨e5, exc5⟩
  cases exc2 with
  | some ex => simp only [validateChecks, hp] at h; cases h
  | none =>
    cases exc4 with
    | some ex => simp only [validateChecks, hp, hs] at h; cases h
    | none =>
      cases exc5 with
      | some ex => simp only [validateChecks, hp, hs, hc] at h; cases h
      | none => exact ⟨rfl, rfl, rfl⟩

theorem required_present (d : List (String × Value)) (k : String)
    (hreq : checkRequired d = []) (hk : k ∈ required_fields) :
    ∃ v, dictGet d k = some v := by
  unfold checkRequired at hreq
  dsimp only at hreq
  by_cases hif : (required_fields.filter (fun k => !(dictHas d k))).isEmpty = true
  · have hnil := List.isEmpty_iff.mp hif
    have hmem := List.filter_eq_nil_iff.mp hnil k hk
    have hhas : dictHas d k = true := by
      cases hd : dictHas d k with
      | true => rfl
      | false => exact absurd (by rw [hd]; rfl) hmem
    unfold dictHas at hhas
    exact Option.isSome_iff_exists.mp hhas
  · rw [if_neg hif] at hreq
    cases hreq

theorem keyOf_isSome_of_mem_ok {v : Value} {st : List (List Char)} {b : Bool}
    (h : pyMemStrSet v st = Except.ok b) : (keyOf v).isSome = true := by
  unfold pyMemStrSet at h
  cases hk : keyOf v with
  | none => rw [hk] at h; cases h
  | some k => rfl

theorem platform_hashable (d : List (String × Value)) (pv : Value)
    (h2 : (checkPlatform d).2 = none)
    (hl : dictGet d ("platform") = some pv) : (keyOf pv).isSome = true := by
  unfold checkPlatform at h2
  rw [hl] at h2
  dsimp only at h2
  cases hm : pyMemStrSet pv valid_platforms with
  | error e => rw [hm] at h2; cases h2
  | ok b => exact keyOf_isSome_of_mem_ok hm

theorem sentiment_hashable (d : List (String × Value)) (sv : Value)
    (h2 : (checkSentiment d).2 = none)
    (hl : dictGet d ("sentiment") = some sv) : (keyOf sv).isSome = true := by
  unfold checkSentiment at h2
  rw [hl] at h2
  dsimp only at h2
  cases hm : pyMemStrSet sv valid_sentiments with
  | error e => rw [hm] at h2; cases h2
  | ok b => exact keyOf_isSome_of_mem_ok hm

theorem category_hashable (d : List (String × Value)) (cv : Value)
    (h2 : (checkCategory d).2 = none)
    (hl : dictGet d ("category") = some cv) : (keyOf cv).isSome = true := by
  unfold checkCategory at h2
  rw [hl] at h2
  dsimp only at h2
  cases hm : pyMemStrSet cv valid_categories with
  | error e => rw [hm] at h2; cases h2
  | ok b => exact keyOf_isSome_of_mem_ok hm

theorem transform_ok_shape {nowIso : List Char} {post tp : Value}
    (h : transform_post nowIso post = Except.ok tp) :
    ∃ d, post = vDict d ∧
    ∃ td, tp = vDict td ∧
      dictGet td ("platform") = dictGet d ("platform") ∧
      dictGetD td ("topic") (vStr (("unknown").toList)) =
        dictGetD d ("topic") (vStr (("unknown").toList)) ∧
      (∃ q, dictGet td ("engagement_rate") = some (vRat q)) ∧
      dictGet td ("sentiment") = dictGet d ("sentiment") ∧
      dictGet td ("category") = dictGet d ("category") ∧
      (∃ hr : Nat, dictGet td ("post_hour") = some (vInt hr)) := by
  cases post with
  | vStr s => simp [transform_post] at h
  | vInt n => simp [transform_post] at h
  | vBool b => simp [transform_post] at h
  | vRat q => simp [transform_post] at h
  | vList l => simp [transform_post] at h
  | vNone => simp [transform_post] at h
  | vDict d =>
    refine ⟨d, rfl, ?_⟩
    unfold transform_post at h
    dsimp only at h
    cases he : dictGet d ("engagement") with
    | none => rw [he] at h; cases h
    | some ev =>
    rw [he] at h
    cases ev with
    | vStr s => simp at h
    | vInt n => simp at h
    | vBool b => simp at h
    | vRat q => simp at h
    | vList l => simp at h
    | vNone => simp at h
    | vDict e =>
    dsimp only at h
    cases h1 : pyAsNum (dictGetD e ("likes") vNone) with
    | none => rw [h1] at h; cases h
    | some likes =>
    rw [h1] at h
    dsimp only at h
    cases h2 : pyAsNum (dictGetD e ("shares") vNone) with
    | none => rw [h2] at h; cases h
    | some shares =>
    rw [h2] at h
    dsimp only at h
    cases h3 : pyAsNum (dictGetD e ("comments") vNone) with
    | none => rw [h3] at h; cases h
    | some comments =>
    rw [h3] at h
    dsimp only at h
    cases h4 : pyAsNum (dictGetD e ("views") vNone) with
    | none => rw [h4] at h; cases h
    | some views =>
    rw [h4] at h
    dsimp only at h
    cases h5 : dictGet d ("content") with
    | none => rw [h5] at h; cases h
    | some cv =>
    rw [h5] at h
    cases cv with
    | vInt n => simp at h
    | vBool b => simp at h
    | vRat q => simp at h
    | vList l => simp at h
    | vDict d2 => simp at h
    | vNone => simp at h
    | vStr cchars =>
    dsimp only at h
    cases h6 : dictGet d ("metadata") with
    | none => rw [h6] at h; cases h
    | some mv =>
    rw [h6] at h
    cases mv with
    | vStr s => simp at h
    | vInt n => simp at h
    | vBool b => simp at h
    | vRat q => simp at h
    | vList l => simp at h
    | vNone => simp at h
    | vDict md =>
    dsimp only at h
    cases h7 : pyLen (dictGetD md ("hashtags") (vList [])) with
    | none => rw [h7] at h; cases h
    | some hc =>
    rw [h7] at h
    dsimp only at h
    cases h8 : dictGet md ("timestamp") with
    | none => rw [h8] at h; cases h
    | some tv =>
    rw [h8] at h
    cases tv with
    | vInt n => simp at h
    | vBool b => simp at h
    | vRat q => simp at h
    | vList l => simp at h
    | vDict d3 => simp at h
    | vNone => simp at h
    | vStr ts =>
    dsimp only at h
    cases h9 : pyFromIso ts with
    | none => rw [h9] at h; cases h
    | some dt =>
    rw [h9] at h
    dsimp only at h
    injection h with h10
    subst h10
    refine ⟨_, rfl, ?_, ?_, ?_, ?_, ?_, ?_⟩
    · rw [dictGet_dictSet_ne _ _ _ _ (by decide), dictGet_dictSet_ne _ _ _ _ (by decide),
        dictGet_dictSet_ne _ _ _ _ (by decide), dictGet_dictSet_ne _ _ _ _ (by decide),
        dictGet_dictSet_ne _ _ _ _ (by decide), dictGet_dictSet_ne _ _ _ _ (by decide)]
    · unfold dictGetD
      rw [dictGet_dictSet_ne _ _ _ _ (by decide), dictGet_dictSet_ne _ _ _ _ (by decide),
        dictGet_dictSet_ne _ _ _ _ (by decide), dictGet_dictSet_ne _ _ _ _ (by decide),
        dictGet_dictSet_ne _ _ _ _ (by decide), dictGet_dictSet_ne _ _ _ _ (by decide)]
    · refine ⟨engagement_rate likes shares comments views, ?_⟩
      rw [dictGet_dictSet_ne _ _ _ _ (by decide), dictGet_dictSet_ne _ _ _ _ (by decide),
        dictGet_dictSet_ne _ _ _ _ (by decide), dictGet_dictSet_ne _ _ _ _ (by decide),
        dictGet_dictSet_self]
    · rw [dictGet_dictSet_ne _ _ _ _ (by decide), dictGet_dictSet_ne _ _ _ _ (by decide),
        dictGet_dictSet_ne _ _ _ _ (by decide), dictGet_dictSet_ne _ _ _ _ (by decide),
        dictGet_dictSet_ne _ _ _ _ (by decide), dictGet_dictSet_ne _ _ _ _ (by decide)]
    · rw [dictGet_dictSet_ne _ _ _ _ (by decide), dictGet_dictSet_ne _ _ _ _ (by decide),
        dictGet_dictSet_ne _ _ _ _ (by decide), dictGet_dictSet_ne _ _ _ _ (by decide),
        dictGet_dictSet_ne _ _ _ _ (by decide), dictGet_dictSet_ne _ _ _ _ (by decide)]
    · exact ⟨dt.hour, by rw [dictGet_dictSet_self]⟩

theorem update_statistics_ok (a : AggState) (td : List (String × Value))
    (pv : Value) (hp : dictGet td ("platform") = some pv)
    (hpk : (keyOf pv).isSome = true)
    (htk : (keyOf (dictGetD td ("topic") (vStr (("unknown").toList)))).isSome = true)
    (rv : Value) (hr : dictGet td ("engagement_rate") = some rv)
    (sv : Value) (hs : dictGet td ("sentiment") = some sv)
    (hsk : (keyOf sv).isSome = true)
    (cv : Value) (hcv : dictGet td ("category") = some cv)
    (hck : (keyOf cv).isSome = true)
    (hv : Value) (hh : dictGet td ("post_hour") = some hv)
    (hhk : (keyOf hv).isSome = true) :
    (update_statistics a td).2 = none ∧
    (update_statistics a td).1.platform_stats = bump a.platform_stats pv := by
  have hpk2 : (keyOf pv).isNone = false := by
    cases hk : keyOf pv with
    | none => rw [hk] at hpk; cases hpk
    | some k => rfl
  have htk2 : (keyOf (dictGetD td ("topic") (vStr (("unknown").toList)))).isNone = false := by
    cases hk : keyOf (dictGetD td ("topic") (vStr (("unknown").toList))) with
    | none => rw [hk] at htk; cases htk
    | some k => rfl
  have hsk2 : (keyOf sv).isNone = false := by
    cases hk : keyOf sv with
    | none => rw [hk] at hsk; cases hsk
    | some k => rfl
  have hck2 : (keyOf cv).isNone = false := by
    cases hk : keyOf cv with
    | none => rw [hk] at hck; cases hck
    | some k => rfl
  have hhk2 : (keyOf hv).isNone = false := by
    cases hk : keyOf hv with
    | none => rw [hk] at hhk; cases hhk
    | some k => rfl
  unfold update_statistics
  rw [hp]
  simp only [hpk2, htk2, hsk2, hck2, hhk2, hr, hs, hcv, hh, Bool.false_eq_true,
    if_false]
  constructor <;> trivial

theorem process_post_step (s : ConsumerState) (now : List Char) (post : Value)
    (htop : topic_hashable post = true)
    (hinv : sumVals s.agg.platform_stats = s.processed_posts) :
    sumVals ((process_post s now post).1.agg.platform_stats) =
      (process_post s now post).1.processed_posts := by
  unfold process_post
  by_cases hval : (validate_post post).1 = true
  · rw [if_pos hval]
    cases ht : transform_post now post with
    | error e =>
      cases hg : pyGetPostId post with
      | none => exact hinv
      | some pid => exact hinv
    | ok tp =>
      obtain ⟨d, hd, td, htd, hplat, htopic, ⟨q, hrate⟩, hsent, hcat, hhr⟩ :=
        transform_ok_shape ht
      subst hd
      subst htd
      have hcore := validate_true_core d hval
      have hexc := validateChecks_exc d hcore.2
      have hall := validateChecks_none d hcore.2
      rw [hcore.1] at hall
      have hreq : checkRequired d = [] := by
        have := hall.symm
        simp only [List.append_eq_nil] at this
        exact this.1.1.1.1.1.1.1.1
      obtain ⟨pv, hpv⟩ := required_present d ("platform") hreq (by decide)
      obtain ⟨sv, hsv⟩ := required_present d ("sentiment") hreq (by decide)
      obtain ⟨cv, hcvl⟩ := required_present d ("category") hreq (by decide)
      obtain ⟨hr0, hhr0⟩ := hhr
      have hpk := platform_hashable d pv hexc.1 hpv
      have hsk := sentiment_hashable d sv hexc.2.1 hsv
      have hck := category_hashable d cv hexc.2.2 hcvl
      have htk : (keyOf (dictGetD td ("topic") (vStr (("unknown").toList)))).isSome
          = true := by
        rw [htopic]
        unfold topic_hashable at htop
        exact htop
      have hok := update_statistics_ok s.agg td pv (by rw [hplat]; exact hpv) hpk htk
        (vRat q) hrate sv (by rw [hsent]; exact hsv) hsk cv (by rw [hcat]; exact hcvl)
        hck (vInt hr0) hhr0 rfl
      cases hu : update_statistics s.agg td with
      | mk agg2 exc =>
        rw [hu] at hok
        dsimp only at hok
        cases exc with
        | some e => cases hok.1
        | none =>
          dsimp only
          rw [hu]
          dsimp only
          rw [hok.2, sumVals_bump, hinv]
  · rw [if_neg hval]
    cases hg : pyGetPostId post with
    | none => exact hinv
    | some pid => exact hinv

/-- Claim C5, counterexample: a record that passes validation but carries a
list-valued `topic` (validation never inspects `topic`). The aggregator
increments the platform counter, then raises on the unhashable topic key;
the exception routes to the failure path, so platform counts sum to 1 while
`processed_posts` stays 0 — the invariant is broken after one step from the
initial state. -/
theorem C5_counterexample :
    sumVals ((process_post initialState [] badTopicPost).1.agg.platform_stats) = 1 ∧
    (process_post initialState [] badTopicPost).1.processed_posts = 0 := by
  constructor
  · decide
  · decide

/-- Claim C5 (amended): for every consumer run from the initial state in
which every input record has a hashable `topic` value (or no `topic` key at
all), the sum of the platform-distribution counts equals the number of
successfully processed records. A validated record with an unhashable
`topic` breaks the invariant by partially updating the platform counts
before the aggregation step raises. -/
theorem C5_theorem (inputs : List (List Char × Value))
    (h : ∀ p ∈ inputs, topic_hashable p.2 = true) :
    sumVals ((run_consumer initialState inputs).agg.platform_stats) =
      (run_consumer initialState inputs).processed_posts := by
  suffices haux : ∀ (l : List (List Char × Value)) (s : ConsumerState),
      (∀ p ∈ l, topic_hashable p.2 = true) →
      sumVals s.agg.platform_stats = s.processed_posts →
      sumVals ((run_consumer s l).agg.platform_stats) =
        (run_consumer s l).processed_posts by
    exact haux inputs initialState h rfl
  intro l
  induction l with
  | nil =>
    intro s _ hinv
    exact hinv
  | cons hd tl ih =>
    intro s hl hinv
    rcases hd with ⟨nw, pst⟩
    show sumVals ((run_consumer (process_post s nw pst).1 tl).agg.platform_stats) = _
    exact ih (process_post s nw pst).1
      (fun p hp => hl p (List.mem_cons_of_mem _ hp))
      (process_post_step s nw pst (hl _ (List.mem_cons_self _ _)) hinv)

/-- Claim C5, witness for the amended statement: a one-record run with a
well-formed record keeps the invariant. -/
theorem C5_witness :
    sumVals ((run_consumer initialState [([], goodPost)]).agg.platform_stats) =
      (run_consumer initialState [([], goodPost)]).processed_posts :=
  C5_theorem [([], goodPost)] (by
    intro p hp
    rw [List.mem_singleton] at hp
    subst hp
    decide)

/-! ## Claim C7: every generated record validates cleanly -/

theorem digitChar_props : ∀ m, m < 10 →
    ((Nat.digitChar m).isDigit = true ∧ dval (Nat.digitChar m) = m ∧
     Nat.digitChar m ≠ 'Z' ∧ Nat.digitChar m ≠ '-' ∧ Nat.digitChar m ≠ '+') := by
  decide

theorem parse2_pad (n : Nat) (h : n < 100) :
    parse2 (Nat.digitChar (n / 10 % 10)) (Nat.digitChar (n % 10)) = some n := by
  have h1 := digitChar_props (n / 10 % 10) (Nat.mod_lt _ (by norm_num))
  have h2 := digitChar_props (n % 10) (Nat.mod_lt _ (by norm_num))
  unfold parse2
  rw [if_pos ⟨h1.1, h2.1⟩, h1.2.1, h2.2.1]
  exact congrArg some (by omega)

theorem parse4_pad (n : Nat) (h : n < 10000) :
    parse4 (Nat.digitChar (n / 1000 % 10)) (Nat.digitChar (n / 100 % 10))
      (Nat.digitChar (n / 10 % 10)) (Nat.digitChar (n % 10)) = some n := by
  rw [show n / 1000 % 10 = n / 100 / 10 % 10 from by omega,
      show n / 10 % 10 = n % 100 / 10 % 10 from by omega,
      show n % 10 = n % 100 % 10 from by omega]
  unfold parse4
  rw [parse2_pad (n / 100) (by omega), parse2_pad (n % 100) (by omega)]
  dsimp only
  exact congrArg some (by omega)

theorem parseFrac_pad6 (n : Nat) (h : n < 1000000) : parseFrac (pad6 n) = some n := by
  unfold pad6
  rw [show n / 100000 % 10 = n / 100 / 1000 % 10 from by omega,
      show n / 10000 % 10 = n / 100 / 100 % 10 from by omega,
      show n / 1000 % 10 = n / 100 / 10 % 10 from by omega,
      show n / 10 % 10 = n % 100 / 10 % 10 from by omega,
      show n % 10 = n % 100 % 10 from by omega]
  simp only [parseFrac]
  rw [parse4_pad (n / 100) (by omega), parse2_pad (n % 100) (by omega)]
  dsimp only
  exact congrArg some (by omega)

theorem daysInMonth_le (y m : Nat) : daysInMonth y m ≤ 31 := by
  unfold daysInMonth
  split_ifs <;> omega

theorem findIdx_none (p : Char → Bool) :
    ∀ (l : List Char) (i : Nat), (∀ c ∈ l, p c = false) → List.findIdx? p l i = none := by
  intro l
  induction l with
  | nil => intro i _; rfl
  | cons a t ih =>
    intro i h
    rw [List.findIdx?_cons, h a (List.mem_cons_self a t)]
    exact ih (i + 1) (fun c hc => h c (List.mem_cons_of_mem a hc))

theorem splitTz_clean (t : List Char) (h : ∀ c ∈ t, c ≠ '-' ∧ c ≠ '+') :
    splitTz t = (t, none) := by
  unfold splitTz
  rw [findIdx_none _ t 0 (fun c hc => decide_eq_false (h c hc).1),
      findIdx_none _ t 0 (fun c hc => decide_eq_false (h c hc).2)]

theorem pyFromIso_isoformat (dt : PyDateTime) (h : dt.InRange) :
    pyFromIso dt.isoformat = some dt := by
  obtain ⟨y, mo, dy, hh, mi, ss, us⟩ := dt
  obtain ⟨hy1, hy2, hm1, hm2, hd1, hd2, hh2, hmi2, hss2, hus2⟩ := h
  simp only [PyDateTime.isoformat] at *
  by_cases hm : us = 0
  · subst hm
    rw [if_pos rfl]
    simp only [pyFromIso]
    rw [parse4_pad y (by omega), parse2_pad mo (by omega),
        parse2_pad dy (by have := daysInMonth_le y mo; omega)]
    dsimp only
    rw [if_pos ⟨hy1, hm1, hm2, hd1, hd2⟩]
    rw [splitTz_clean _ (by
      intro c hc
      simp only [List.mem_cons, List.not_mem_nil, or_false] at hc
      rcases hc with rfl | rfl | rfl | rfl | rfl | rfl | rfl | rfl <;>
        first
          | exact ⟨by decide, by decide⟩
          | exact ⟨(digitChar_props _ (Nat.mod_lt _ (by norm_num))).2.2.2.1,
                   (digitChar_props _ (Nat.mod_lt _ (by norm_num))).2.2.2.2⟩)]
    dsimp only
    simp only [parseHMS]
    rw [parse2_pad hh (by omega), parse2_pad mi (by omega), parse2_pad ss (by omega)]
    dsimp only
    rw [if_pos ⟨hh2, hmi2, hss2⟩]
  · rw [if_neg hm]
    simp only [pyFromIso]
    rw [parse4_pad y (by omega), parse2_pad mo (by omega),
        parse2_pad dy (by have := daysInMonth_le y mo; omega)]
    dsimp only
    rw [if_pos ⟨hy1, hm1, hm2, hd1, hd2⟩]
    rw [splitTz_clean _ (by
      intro c hc
      simp only [pad6, List.mem_cons, List.not_mem_nil, or_false] at hc
      rcases hc with rfl | rfl | rfl | rfl | rfl | rfl | rfl | rfl | rfl | rfl | rfl |
        rfl | rfl | rfl | rfl <;>
        first
          | exact ⟨by decide, by decide⟩
          | exact ⟨(digitChar_props _ (Nat.mod_lt _ (by norm_num))).2.2.2.1,
                   (digitChar_props _ (Nat.mod_lt _ (by norm_num))).2.2.2.2⟩)]
    dsimp only
    simp only [parseHMS]
    rw [parse2_pad hh (by omega), parse2_pad mi (by omega), parse2_pad ss (by omega),
        parseFrac_pad6 us (by omega)]
    dsimp only
    rw [if_pos ⟨hh2, hmi2, hss2⟩]

theorem isoformat_no_Z (dt : PyDateTime) : ∀ c ∈ dt.isoformat, c ≠ 'Z' := by
  intro c hc
  unfold PyDateTime.isoformat at hc
  by_cases hm : dt.micro = 0
  · rw [if_pos hm] at hc
    simp only [List.mem_cons, List.not_mem_nil, or_false] at hc
    rcases hc with rfl | rfl | rfl | rfl | rfl | rfl | rfl | rfl | rfl | rfl | rfl |
      rfl | rfl | rfl | rfl | rfl | rfl | rfl | rfl <;>
      first
        | decide
        | exact (digitChar_props _ (Nat.mod_lt _ (by norm_num))).2.2.1
  · rw [if_neg hm] at hc
    simp only [pad6, List.mem_cons, List.not_mem_nil, or_false] at hc
    rcases hc with rfl | rfl | rfl | rfl | rfl | rfl | rfl | rfl | rfl | rfl | rfl |
      rfl | rfl | rfl | rfl | rfl | rfl | rfl | rfl | rfl | rfl | rfl | rfl | rfl |
      rfl | rfl <;>
      first
        | decide
        | exact (digitChar_props _ (Nat.mod_lt _ (by norm_num))).2.2.1

theorem pyReplaceZ_id : ∀ (s : List Char), (∀ c ∈ s, c ≠ 'Z') → pyReplaceZ s = s
  | [], _ => rfl
  | a :: t, h => by
    have ht := pyReplaceZ_id t (fun c hc => h c (List.mem_cons_of_mem a hc))
    unfold pyReplaceZ at ht ⊢
    simp only [List.map_cons, List.flatten_cons]
    rw [if_neg (h a (List.mem_cons_self a t)), ht]
    rfl

theorem headD_mem {l : List Char} (d : Char) (h : l ≠ []) : l.headD d ∈ l := by
  cases l with
  | nil => exact absurd rfl h
  | cons a t => exact List.mem_cons_self a t

theorem isEmpty_false_of_ne_nil {l : List Char} (h : l ≠ []) : l.isEmpty = false := by
  cases l with
  | nil => exact absurd rfl h
  | cons a t => rfl

theorem pyStrip_ne_nil {s : List Char} {c : Char} (hc : c ∈ s)
    (hw : c.isWhitespace = false) : pyStrip s ≠ [] := by
  intro hnil
  unfold pyStrip at hnil
  rw [List.reverse_eq_nil_iff, List.dropWhile_eq_nil_iff] at hnil
  have hcd : c ∈ s.dropWhile Char.isWhitespace := by
    have hsplit : c ∈ s.takeWhile Char.isWhitespace ++ s.dropWhile Char.isWhitespace := by
      rw [List.takeWhile_append_dropWhile]
      exact hc
    rcases List.mem_append.mp hsplit with h1 | h2
    · exact absurd (List.mem_takeWhile_imp h1) (by simp [hw])
    · exact h2
  have hws := hnil c (List.mem_reverse.mpr hcd)
  simp [hw] at hws

theorem pyTrunc_nonneg {q : Rat} (h : 0 ≤ q) : 0 ≤ pyTrunc q := by
  unfold pyTrunc
  rw [if_pos h]
  exact Int.floor_nonneg.mpr h

theorem engagement_multiplier_pos (p : List Char) : 0 < engagement_multiplier p := by
  unfold engagement_multiplier
  split_ifs <;> norm_num

theorem platforms_valid : ∀ i, i < 5 →
    valid_platforms.contains (platforms.getD i []) = true := by
  decide

theorem sentiments_valid : ∀ i, i < 3 →
    valid_sentiments.contains (sentiments.getD i []) = true := by
  decide

theorem template_head : ∀ i, i < 8 →
    (content_templates.getD i ([], [])).1 ≠ [] ∧
    ((content_templates.getD i ([], [])).1.headD ' ').isWhitespace = false := by
  decide

theorem template_len : ∀ i, i < 8 →
    (content_templates.getD i ([], [])).1.length +
      (content_templates.getD i ([], [])).2.length ≤ 100 := by
  decide

theorem topic_len : ∀ j, j < 11 → (topics.getD j []).length ≤ 30 := by
  decide

theorem categorize_valid (c t : List Char) :
    valid_categories.contains (categorize_content c t) = true := by
  simp only [categorize_content]
  split_ifs <;> decide

theorem checkPostId_ok (d : List (String × Value)) (s : List Char)
    (hget : dictGet d ("post_id") = some (vStr s)) (c : Char) (hc : c ∈ s)
    (hw : c.isWhitespace = false) : checkPostId d = [] := by
  unfold checkPostId
  rw [hget]
  dsimp only
  have hne : isNonEmptyStr (vStr s) = true := by
    unfold isNonEmptyStr
    dsimp only
    rw [isEmpty_false_of_ne_nil (pyStrip_ne_nil hc hw)]
    rfl
  rw [if_pos hne]

theorem checkUserId_ok (d : List (String × Value)) (n : Int)
    (hget : dictGet d ("user_id") = some (vInt n)) (hn : 0 < n) : checkUserId d = [] := by
  unfold checkUserId
  rw [hget]
  dsimp only [pyAsInt]
  rw [if_pos hn]

theorem checkPlatform_ok (d : List (String × Value)) (s : List Char)
    (hget : dictGet d ("platform") = some (vStr s))
    (hmem : valid_platforms.contains s = true) : checkPlatform d = ([], none) := by
  unfold checkPlatform
  rw [hget]
  dsimp only [pyMemStrSet, keyOf]
  rw [hmem]

theorem checkSentiment_ok (d : List (String × Value)) (s : List Char)
    (hget : dictGet d ("sentiment") = some (vStr s))
    (hmem : valid_sentiments.contains s = true) : checkSentiment d = ([], none) := by
  unfold checkSentiment
  rw [hget]
  dsimp only [pyMemStrSet, keyOf]
  rw [hmem]

theorem checkCategory_ok (d : List (String × Value)) (s : List Char)
    (hget : dictGet d ("category") = some (vStr s))
    (hmem : valid_categories.contains s = true) : checkCategory d = ([], none) := by
  unfold checkCategory
  rw [hget]
  dsimp only [pyMemStrSet, keyOf]
  rw [hmem]

theorem checkContent_ok (d : List (String × Value)) (s : List Char)
    (hget : dictGet d ("content") = some (vStr s)) (c : Char) (hc : c ∈ s)
    (hw : c.isWhitespace = false) (hlen : s.length ≤ 10000) : checkContent d = [] := by
  unfold checkContent
  rw [hget]
  dsimp only
  have h1 : ¬((pyStrip s).isEmpty = true) := by
    rw [isEmpty_false_of_ne_nil (pyStrip_ne_nil hc hw)]
    exact Bool.false_ne_true
  rw [if_neg h1, if_neg (by omega)]

theorem checkEngVal_vInt (e : List (String × Value)) (k : String) (n : Int)
    (hget : dictGet e k = some (vInt n)) (hn : 0 ≤ n) : checkEngVal e k = [] := by
  unfold checkEngVal
  rw [hget]
  dsimp only [pyAsInt]
  rw [if_neg (by omega)]

theorem checkEngagement_ok (d : List (String × Value)) (l s c v : Int)
    (hget : dictGet d ("engagement") = some (vDict
      [(("likes"), vInt l), (("shares"), vInt s),
       (("comments"), vInt c), (("views"), vInt v)]))
    (hl : 0 ≤ l) (hs : 0 ≤ s) (hc : 0 ≤ c) (hv : 0 ≤ v) : checkEngagement d = [] := by
  unfold checkEngagement
  rw [hget]
  dsimp only
  simp only [engagement_fields, List.map_cons, List.map_nil]
  rw [checkEngVal_vInt _ _ l (by simp [dictGet]) hl,
      checkEngVal_vInt _ _ s (by simp [dictGet]) hs,
      checkEngVal_vInt _ _ c (by simp [dictGet]) hc,
      checkEngVal_vInt _ _ v (by simp [dictGet]) hv]
  rfl

theorem checkTimestamp_iso (m : List (String × Value)) (dt : PyDateTime)
    (hget : dictGet m ("timestamp") = some (vStr dt.isoformat)) (h : dt.InRange) :
    checkTimestamp m = [] := by
  unfold checkTimestamp
  rw [hget]
  dsimp only
  rw [pyReplaceZ_id dt.isoformat (isoformat_no_Z dt), pyFromIso_isoformat dt h]
  rfl

theorem checkHashtags_strs (m : List (String × Value)) (l : List Value)
    (hget : dictGet m ("hashtags") = some (vList l))
    (hall : l.all (fun x => match x with | vStr _ => true | _ => false) = true) :
    checkHashtags m = [] := by
  unfold checkHashtags
  rw [hget]
  dsimp only
  rw [if_pos hall]

theorem checkMetadata_ok (d m : List (String × Value))
    (hget : dictGet d ("metadata") = some (vDict m))
    (ht : checkTimestamp m = []) (hh : checkHashtags m = []) : checkMetadata d = [] := by
  unfold checkMetadata
  rw [hget]
  dsimp only
  rw [ht, hh]
  rfl

theorem validate_of_checks (d : List (String × Value))
    (h1 : checkRequired d = []) (h2 : checkPostId d = []) (h3 : checkUserId d = [])
    (h4 : checkPlatform d = ([], none)) (h5 : checkContent d = [])
    (h6 : checkEngagement d = []) (h7 : checkMetadata d = [])
    (h8 : checkSentiment d = ([], none)) (h9 : checkCategory d = ([], none)) :
    validate_post (vDict d) = (true, []) := by
  unfold validate_post validate_core validateChecks
  dsimp only
  rw [h1, h2, h3, h4, h5, h6, h7, h8, h9]
  rfl

/-- Claim C7: for every tuple of random draws inside the ranges drawn by
`SocialMediaProducer.generate_post` and every generated-count, the generated
record passes `validate_post` with `valid = true` and no error messages. -/
theorem C7_theorem (g : GenDraws) (n : Nat) (h : g.InRange) :
    validate_post (generate_post g n) = (true, []) := by
  obtain ⟨hu1, hu2, hun, hpl, hto, htm, hb1, hb2, hjl1, hjl2, hjs1, hjs2, hjc1, hjc2,
    hjv1, hjv2, hdt, hhl1, hhl2, hmn, hsn⟩ := h
  have hmu : (0 : Rat) ≤ engagement_multiplier (platforms.getD g.platformIdx []) :=
    le_of_lt (engagement_multiplier_pos _)
  have hb0 : (0 : Rat) ≤ (g.base : Rat) := Nat.cast_nonneg _
  have hth := template_head g.templateIdx htm
  dsimp only [generate_post]
  apply validate_of_checks
  · rfl
  · refine checkPostId_ok _ _ (by rfl) 'p' ?_ (by decide)
    exact List.mem_append_left _ (List.mem_append_left _ (by decide))
  · refine checkUserId_ok _ _ (by rfl) ?_
    have h0 : 0 < g.userId := by omega
    exact_mod_cast h0
  · exact checkPlatform_ok _ _ (by rfl) (platforms_valid _ hpl)
  · refine checkContent_ok _ _ (by rfl)
      ((content_templates.getD g.templateIdx ([], [])).1.headD ' ') ?_ hth.2 ?_
    · exact List.mem_append_left _ (List.mem_append_left _ (headD_mem ' ' hth.1))
    · simp only [List.length_append]
      have ht1 := template_len g.templateIdx htm
      have ht2 := topic_len g.topicIdx hto
      omega
  · refine checkEngagement_ok _ _ _ _ _ (by rfl) ?_ ?_ ?_ ?_
    · exact pyTrunc_nonneg (mul_nonneg (mul_nonneg hb0 hmu) (by linarith))
    · exact pyTrunc_nonneg
        (mul_nonneg (mul_nonneg (mul_nonneg hb0 hmu) (by norm_num)) (by linarith))
    · exact pyTrunc_nonneg
        (mul_nonneg (mul_nonneg (mul_nonneg hb0 hmu) (by norm_num)) (by linarith))
    · exact pyTrunc_nonneg
        (mul_nonneg (mul_nonneg (mul_nonneg hb0 hmu) (by norm_num)) (by linarith))
  · refine checkMetadata_ok _ _ (by rfl)
      (checkTimestamp_iso _ g.postTime (by rfl) hdt)
      (checkHashtags_strs _ _ (by rfl) ?_)
    rw [List.all_eq_true]
    intro x hx
    rw [List.mem_map] at hx
    obtain ⟨i, hi, rfl⟩ := hx
    rfl
  · exact checkSentiment_ok _ _ (by rfl) (sentiments_valid _ hsn)
  · exact checkCategory_ok _ _ (by rfl) (categorize_valid _ _)

/-- Claim C7, witness: a concrete in-range tuple of draws produces a record
that validates cleanly. -/
theorem C7_witness :
    sampleDraws.InRange ∧ validate_post (generate_post sampleDraws 0) = (true, []) :=
  ⟨by norm_num [GenDraws.InRange, sampleDraws, PyDateTime.InRange, daysInMonth, isLeap],
   C7_theorem sampleDraws 0
     (by norm_num [GenDraws.InRange, sampleDraws, PyDateTime.InRange, daysInMonth, isLeap])⟩

end SMPipe
